import Mathlib

/-
Verification of the page-load-metrics trace handler
(front_end/models/trace/handlers/PageLoadMetricsHandler.ts).

The handler is embedded shallowly: its module-level mutable state becomes an
explicit `HandlerState` record threaded through the operations, JS `Map`s
become association lists with JS `Map` semantics (`set` updates an existing
key in place and appends a new key at the end, preserving insertion order),
JS `Set`s of events become duplicate-free lists in insertion order, and
functions that can `throw` return `Except String`.  Timestamps are natural
numbers of microseconds as in the trace format; elapsed times and blocking
times are integers (JS numbers restricted to the integer values that actually
arise, since every quantity involved is a whole number of microseconds).
-/

set_option autoImplicit false

namespace PageLoadMetrics

/-! ### Association-list maps with JS `Map` semantics -/

/-- JS `Map.prototype.get`: the value stored for `k`, if any. -/
def mapGet {α β : Type} [DecidableEq α] (k : α) : List (α × β) → Option β
  | [] => none
  | (k0, v0) :: rest => if k0 = k then some v0 else mapGet k rest

/-- JS `Map.prototype.set`: update an existing key in place (keeping its
position in insertion order) or append a new key at the end. -/
def mapSet {α β : Type} [DecidableEq α] : List (α × β) → α → β → List (α × β)
  | [], k, v => [(k, v)]
  | (k0, v0) :: rest, k, v =>
    if k0 = k then (k, v) :: rest else (k0, v0) :: mapSet rest k v

/-- JS `Map.prototype.delete`: remove the entry for `k`. -/
def mapDelete {α β : Type} [DecidableEq α] (m : List (α × β)) (k : α) : List (α × β) :=
  m.filter (fun p => p.1 ≠ k)

/-! ### Data model -/

/-- The trace-event kinds this handler distinguishes via the runtime type
guards (`isTraceEventMarkDOMContent`, ...); `Other` stands for every
unrecognized event name. -/
inductive EventKind : Type
  | MarkDOMContent
  | MarkLoad
  | FirstPaint
  | FirstContentfulPaint
  | LargestContentfulPaintCandidate
  | InteractiveTime
  | LayoutShift
  | Other
  deriving DecidableEq

/-- A trace event, flattened to the fields the handler reads.
`argsFrame` is `args.frame` (present on paint/interactive/layout-shift
events), `dataFrame` is `args.data?.frame`, `navigationId` is
`args.data?.navigationId`, `candidateIndex` is `args.data?.candidateIndex`,
and `totalBlockingTimeMs` is `args.args.total_blocking_time_ms` of an
InteractiveTime event.  Optional payload fields are `Option`s; JS reads of
them are modelled together with the surrounding truthiness checks. -/
structure TraceEvent where
  name : EventKind
  ts : Nat
  pid : Nat
  argsFrame : String
  dataFrame : Option String
  navigationId : Option String
  candidateIndex : Option Nat
  totalBlockingTimeMs : Nat
  deriving DecidableEq

/-- The `TraceEventNavigationStart` fields the handler reads:
`args.data?.navigationId` and the timestamp. -/
structure TraceEventNavigationStart where
  navigationId : Option String
  ts : Nat
  deriving DecidableEq

/-- A renderer process activity window, `processData.window`. -/
structure ProcessWindow where
  min : Nat
  max : Nat
  deriving DecidableEq

/-- Per-process data stored in the Meta handler's `rendererProcessesByFrame`
index. -/
structure ProcessData where
  window : ProcessWindow
  deriving DecidableEq

/-- The slice of the Meta handler's finalized data this handler reads. -/
structure MetaData where
  navigationsByNavigationId : List (String × TraceEventNavigationStart)
  navigationsByFrameId : List (String × List TraceEventNavigationStart)
  rendererProcessesByFrame : List (String × List (Nat × ProcessData))
  mainFrameId : String

/-- A main-thread task event as read from the Renderer handler's per-thread
flat event list: the handler looks at `name`, `ts`, `dur` and whether the
event is an instant (phase `I`) event. -/
structure RendererTaskEvent where
  name : String
  ts : Nat
  dur : Nat
  isInstant : Bool
  deriving DecidableEq

/-- A call-tree node; the handler only reads `eventIndex`. -/
structure TreeNode where
  eventIndex : Nat
  deriving DecidableEq

/-- A per-thread call tree: root node ids and the id-to-node map. -/
structure ThreadTree where
  roots : List Nat
  nodes : List (Nat × TreeNode)
  deriving DecidableEq

/-- A renderer thread as exposed by the Renderer handler. -/
structure RendererThread where
  name : String
  tree : Option ThreadTree
  events : List RendererTaskEvent
  deriving DecidableEq

/-- A renderer process: its threads keyed by thread id. -/
structure RendererProcess where
  threads : List (Nat × RendererThread)
  deriving DecidableEq

/-- The slice of the Renderer handler's finalized data this handler reads. -/
structure RendererData where
  processes : List (Nat × RendererProcess)
  deriving DecidableEq

/-- The `ScoreClassification` enum. -/
inductive ScoreClassification : Type
  | GOOD
  | OK
  | BAD
  | UNCLASSIFIED
  deriving DecidableEq

/-- The `MetricName` enum. -/
inductive MetricName : Type
  | FCP
  | FP
  | L
  | LCP
  | DCL
  | TTI
  | TBT
  | CLS
  deriving DecidableEq

/-- The `TimeUnit` values used by this handler when formatting scores. -/
inductive TimeUnit : Type
  | SECONDS
  | MILLISECONDS
  deriving DecidableEq

/-- Modelled from the spec: `Helpers.Timing.formatMicrosecondsTime` (in
`front_end/models/trace/helpers/Timing.ts`, which is not included under
`src/`) renders a microsecond value as a string in the requested unit with
the requested number of fraction digits.  No claim depends on the rendered
text, so the formatter is modelled injectively as the record of its inputs:
the underlying microsecond value together with the formatting options. -/
structure FormattedTime where
  valueMicros : Int
  format : TimeUnit
  maximumFractionDigits : Nat
  deriving DecidableEq

/-- Modelled from the spec: `Helpers.Timing.formatMicrosecondsTime`, see
`FormattedTime`. -/
def formatMicrosecondsTime (v : Int) (format : TimeUnit) (maximumFractionDigits : Nat) :
    FormattedTime :=
  { valueMicros := v, format := format, maximumFractionDigits := maximumFractionDigits }

/-- `Helpers.Timing.millisecondsToMicroseconds` (helper not under `src/`;
its semantics, milliseconds times 1000, is forced by the unit names and the
spec's examples). -/
def millisecondsToMicroseconds (ms : Int) : Int :=
  ms * 1000

/-- A `MetricScore` record. `estimated` is an optional field in the source;
a score built without it is modelled as `none`. -/
structure MetricScore where
  score : FormattedTime
  metricName : MetricName
  classification : ScoreClassification
  event : Option TraceEvent
  navigation : Option TraceEventNavigationStart
  estimated : Option Bool
  deriving DecidableEq

/-- The innermost level of the metric table: metric name to score, in
insertion order. -/
abbrev MetricsMap := List (MetricName × MetricScore)

/-- Map from navigation id to its metrics. -/
abbrev NavigationMap := List (String × MetricsMap)

/-- `metricScoresByFrameId`: frame id to navigation id to metric scores. -/
abbrev MetricTable := List (String × NavigationMap)

/-- The handler's module-level mutable state, made explicit. -/
structure HandlerState where
  metricScoresByFrameId : MetricTable
  pageLoadEventsArray : List TraceEvent
  allMarkerEvents : List TraceEvent
  selectedLCPCandidateEvents : List TraceEvent
  deriving DecidableEq

/-- Results of fallible handler steps are compared in witnesses, so `Except`
needs decidable equality. -/
instance exceptDecEq {ε α : Type} [DecidableEq ε] [DecidableEq α] :
    DecidableEq (Except ε α) := fun a b =>
  match a, b with
  | Except.ok x, Except.ok y =>
    if h : x = y then isTrue (by rw [h])
    else isFalse (fun he => by cases he; exact h rfl)
  | Except.ok _, Except.error _ => isFalse (fun he => by cases he)
  | Except.error _, Except.ok _ => isFalse (fun he => by cases he)
  | Except.error x, Except.error y =>
    if h : x = y then isTrue (by rw [h])
    else isFalse (fun he => by cases he; exact h rfl)

/-- `reset()`: clears all four pieces of accumulation state. -/
def reset (_st : HandlerState) : HandlerState :=
  { metricScoresByFrameId := []
    pageLoadEventsArray := []
    allMarkerEvents := []
    selectedLCPCandidateEvents := [] }

/-- The state of a freshly reset handler. -/
def emptyHandlerState : HandlerState :=
  { metricScoresByFrameId := []
    pageLoadEventsArray := []
    allMarkerEvents := []
    selectedLCPCandidateEvents := [] }

/-- The exported `PageLoadMetricsData` shape returned by `data()`. -/
structure PageLoadMetricsData where
  metricScoresByFrameId : MetricTable
  allMarkerEvents : List TraceEvent
  deriving DecidableEq

/-- `data()`: the snapshot handed to callers.  In this value-semantics model
the copies are identities; the reference-level (aliasing) behaviour of the
`new Map(...)` copy is modelled separately below by the `JSHeap` development. -/
def data (st : HandlerState) : PageLoadMetricsData :=
  { metricScoresByFrameId := st.metricScoresByFrameId
    allMarkerEvents := st.allMarkerEvents }

/-- `deps()`. -/
def deps : List String :=
  ["Meta", "Renderer"]

/-! ### Event classifier -/

/-- `Types.TraceEvents.isTraceEventMarkDOMContent`. -/
def isTraceEventMarkDOMContent (event : TraceEvent) : Bool :=
  event.name = EventKind.MarkDOMContent

/-- `Types.TraceEvents.isTraceEventMarkLoad`. -/
def isTraceEventMarkLoad (event : TraceEvent) : Bool :=
  event.name = EventKind.MarkLoad

/-- `Types.TraceEvents.isTraceEventFirstPaint`. -/
def isTraceEventFirstPaint (event : TraceEvent) : Bool :=
  event.name = EventKind.FirstPaint

/-- `Types.TraceEvents.isTraceEventFirstContentfulPaint`. -/
def isTraceEventFirstContentfulPaint (event : TraceEvent) : Bool :=
  event.name = EventKind.FirstContentfulPaint

/-- `Types.TraceEvents.isTraceEventLargestContentfulPaintCandidate`. -/
def isTraceEventLargestContentfulPaintCandidate (event : TraceEvent) : Bool :=
  event.name = EventKind.LargestContentfulPaintCandidate

/-- `Types.TraceEvents.isTraceEventInteractiveTime`. -/
def isTraceEventInteractiveTime (event : TraceEvent) : Bool :=
  event.name = EventKind.InteractiveTime

/-- `Types.TraceEvents.isTraceEventLayoutShift`. -/
def isTraceEventLayoutShift (event : TraceEvent) : Bool :=
  event.name = EventKind.LayoutShift

/-- The `markerTypeGuards` list. -/
def markerTypeGuards : List (TraceEvent → Bool) :=
  [isTraceEventMarkDOMContent,
   isTraceEventMarkLoad,
   isTraceEventFirstPaint,
   isTraceEventFirstContentfulPaint,
   isTraceEventLargestContentfulPaintCandidate]

/-- `isTraceEventMarkerEvent`: some guard in `markerTypeGuards` accepts. -/
def isTraceEventMarkerEvent (event : TraceEvent) : Bool :=
  markerTypeGuards.any (fun fn => fn event)

/-- The `pageLoadEventTypeGuards` list. -/
def pageLoadEventTypeGuards : List (TraceEvent → Bool) :=
  markerTypeGuards ++ [isTraceEventInteractiveTime]

/-- `eventIsPageLoadEvent`. -/
def eventIsPageLoadEvent (event : TraceEvent) : Bool :=
  pageLoadEventTypeGuards.any (fun fn => fn event)

/-- `handleEvent`: buffer page-load events, ignore everything else. -/
def handleEvent (st : HandlerState) (event : TraceEvent) : HandlerState :=
  if eventIsPageLoadEvent event then
    { st with pageLoadEventsArray := st.pageLoadEventsArray ++ [event] }
  else
    st

/-- The streaming phase on a whole event sequence: `handleEvent` folded over
the arrival order. -/
def handleEvents (st : HandlerState) (events : List TraceEvent) : HandlerState :=
  events.foldl handleEvent st

/-! ### Metric scorer -/

/-- `scoreClassificationForFirstContentfulPaint`.  The source computes the
thresholds as `secondsToMicroseconds(1.8)` and `secondsToMicroseconds(3.0)`;
both double-precision products are exactly the integers used here. -/
def scoreClassificationForFirstContentfulPaint (fcpScoreInMicroseconds : Int) :
    ScoreClassification :=
  let FCP_GOOD_TIMING : Int := 1800000
  let FCP_MEDIUM_TIMING : Int := 3000000
  let scoreClassification := ScoreClassification.BAD
  let scoreClassification :=
    if fcpScoreInMicroseconds ≤ FCP_MEDIUM_TIMING then ScoreClassification.OK
    else scoreClassification
  if fcpScoreInMicroseconds ≤ FCP_GOOD_TIMING then ScoreClassification.GOOD
  else scoreClassification

/-- `scoreClassificationForTimeToInteractive`; thresholds
`secondsToMicroseconds(3.8)` and `secondsToMicroseconds(7.3)`, whose
double-precision products are exactly these integers. -/
def scoreClassificationForTimeToInteractive (ttiTimeInMicroseconds : Int) :
    ScoreClassification :=
  let TTI_GOOD_TIMING : Int := 3800000
  let TTI_MEDIUM_TIMING : Int := 7300000
  let scoreClassification := ScoreClassification.BAD
  let scoreClassification :=
    if ttiTimeInMicroseconds ≤ TTI_MEDIUM_TIMING then ScoreClassification.OK
    else scoreClassification
  if ttiTimeInMicroseconds ≤ TTI_GOOD_TIMING then ScoreClassification.GOOD
  else scoreClassification

/-- `scoreClassificationForLargestContentfulPaint`; thresholds
`secondsToMicroseconds(2.5)` and `secondsToMicroseconds(4)`. -/
def scoreClassificationForLargestContentfulPaint (lcpTimeInMicroseconds : Int) :
    ScoreClassification :=
  let LCP_GOOD_TIMING : Int := 2500000
  let LCP_MEDIUM_TIMING : Int := 4000000
  let scoreClassification := ScoreClassification.BAD
  let scoreClassification :=
    if lcpTimeInMicroseconds ≤ LCP_MEDIUM_TIMING then ScoreClassification.OK
    else scoreClassification
  if lcpTimeInMicroseconds ≤ LCP_GOOD_TIMING then ScoreClassification.GOOD
  else scoreClassification

/-- `scoreClassificationForDOMContentLoaded`: DCL has no classification. -/
def scoreClassificationForDOMContentLoaded (_dclTimeInMicroseconds : Int) :
    ScoreClassification :=
  ScoreClassification.UNCLASSIFIED

/-- `scoreClassificationForTotalBlockingTime`; thresholds
`millisecondsToMicroseconds(200)` and `millisecondsToMicroseconds(600)`. -/
def scoreClassificationForTotalBlockingTime (tbtTimeInMicroseconds : Int) :
    ScoreClassification :=
  let TBT_GOOD_TIMING : Int := millisecondsToMicroseconds 200
  let TBT_MEDIUM_TIMING : Int := millisecondsToMicroseconds 600
  let scoreClassification := ScoreClassification.BAD
  let scoreClassification :=
    if tbtTimeInMicroseconds ≤ TBT_MEDIUM_TIMING then ScoreClassification.OK
    else scoreClassification
  if tbtTimeInMicroseconds ≤ TBT_GOOD_TIMING then ScoreClassification.GOOD
  else scoreClassification

/-! ### Navigation and frame resolution -/

/-- `getFrameIdForPageLoadEvent`.  For paint, interactive-time and
layout-shift events the frame id is `args.frame`; for `MarkDOMContent` and
`MarkLoad` it is `args.data?.frame` and a falsy value (`undefined` or the
empty string) throws. -/
def getFrameIdForPageLoadEvent (event : TraceEvent) : Except String String :=
  match event.name with
  | EventKind.FirstContentfulPaint => Except.ok event.argsFrame
  | EventKind.InteractiveTime => Except.ok event.argsFrame
  | EventKind.LargestContentfulPaintCandidate => Except.ok event.argsFrame
  | EventKind.LayoutShift => Except.ok event.argsFrame
  | EventKind.FirstPaint => Except.ok event.argsFrame
  | EventKind.MarkDOMContent =>
    match event.dataFrame with
    | none => Except.error "MarkDOMContent unexpectedly had no frame ID."
    | some frameId =>
      if frameId = "" then Except.error "MarkDOMContent unexpectedly had no frame ID."
      else Except.ok frameId
  | EventKind.MarkLoad =>
    match event.dataFrame with
    | none => Except.error "MarkDOMContent unexpectedly had no frame ID."
    | some frameId =>
      if frameId = "" then Except.error "MarkDOMContent unexpectedly had no frame ID."
      else Except.ok frameId
  | EventKind.Other => Except.error "Unexpected event type"

/-- Modelled from the spec: `Helpers.Trace.getNavigationForTraceEvent` lives
in `front_end/models/trace/helpers/Trace.ts`, which is not included under
`src/`.  Per the spec it answers "the navigation active for this frame at
this timestamp": among the frame's navigations that started at or before the
event's timestamp, the most recent one, or null when the frame is unknown or
no navigation has started yet. -/
def getNavigationForTraceEvent (event : TraceEvent) (frameId : String)
    (navigationsByFrameId : List (String × List TraceEventNavigationStart)) :
    Option TraceEventNavigationStart :=
  match mapGet frameId navigationsByFrameId with
  | none => none
  | some navigations =>
    (navigations.filter (fun n => n.ts ≤ event.ts)).foldl (fun _ n => some n) none

/-- `getNavigationForPageLoadEvent`.  FCP, LCP-candidate and FirstPaint
events carry their navigation id (a falsy id throws); the id is looked up in
the Meta handler's index and an unknown id yields null (the navigation was
filtered out as noise).  The remaining kinds resolve the frame id first and
then ask for the navigation active in that frame at the event's timestamp. -/
def getNavigationForPageLoadEvent (meta : MetaData) (event : TraceEvent) :
    Except String (Option TraceEventNavigationStart) :=
  match event.name with
  | EventKind.FirstContentfulPaint
  | EventKind.LargestContentfulPaintCandidate
  | EventKind.FirstPaint =>
    match event.navigationId with
    | none => Except.error "Trace event unexpectedly had no navigation ID."
    | some navigationId =>
      if navigationId = "" then Except.error "Trace event unexpectedly had no navigation ID."
      else Except.ok (mapGet navigationId meta.navigationsByNavigationId)
  | EventKind.MarkDOMContent
  | EventKind.InteractiveTime
  | EventKind.LayoutShift
  | EventKind.MarkLoad =>
    match getFrameIdForPageLoadEvent event with
    | Except.error e => Except.error e
    | Except.ok frameId =>
      Except.ok (getNavigationForTraceEvent event frameId meta.navigationsByFrameId)
  | EventKind.Other => Except.error "Unexpected event type"

/-! ### Metric storage -/

/-- `storeMetricScore`: store under (frame, navigation, metric name),
deleting an existing entry for the metric first so that the re-inserted
entry moves to the end of the innermost map (insertion order reflects
update order). -/
def storeMetricScore (table : MetricTable) (frameId : String) (navigationId : String)
    (metricScore : MetricScore) : MetricTable :=
  let metricsByNavigation := (mapGet frameId table).getD []
  let metrics := (mapGet navigationId metricsByNavigation).getD []
  let metrics2 := mapSet (mapDelete metrics metricScore.metricName) metricScore.metricName metricScore
  mapSet table frameId (mapSet metricsByNavigation navigationId metrics2)

/-- JS `Set.prototype.add` on the selected-LCP-candidate set: append if not
already a member (insertion order preserved). -/
def setAdd (s : List TraceEvent) (event : TraceEvent) : List TraceEvent :=
  if event ∈ s then s else s ++ [event]

/-- JS `Set.prototype.delete`. -/
def setDelete (s : List TraceEvent) (event : TraceEvent) : List TraceEvent :=
  s.filter (fun x => x ≠ event)

/-- `storePageLoadMetricAgainstNavigationId`: validate the navigation id and
the event's process activity window, then store the metric scores for the
event's kind; the LCP-candidate branch additionally performs the
monotonic-candidate-index selection against the currently stored candidate. -/
def storePageLoadMetricAgainstNavigationId (meta : MetaData)
    (navigation : TraceEventNavigationStart) (event : TraceEvent)
    (st : HandlerState) : Except String HandlerState :=
  match navigation.navigationId with
  | none => Except.error "Navigation event unexpectedly had no navigation ID."
  | some navigationId =>
    if navigationId = "" then Except.error "Navigation event unexpectedly had no navigation ID."
    else
      match getFrameIdForPageLoadEvent event with
      | Except.error e => Except.error e
      | Except.ok frameId =>
        match mapGet frameId meta.rendererProcessesByFrame with
        | none => Except.ok st
        | some rendererProcessesInFrame =>
          match mapGet event.pid rendererProcessesInFrame with
          | none => Except.ok st
          | some processData =>
            if processData.window.min ≤ event.ts ∧ event.ts ≤ processData.window.max then
              match event.name with
              | EventKind.FirstContentfulPaint =>
                let fcpTime : Int := (event.ts : Int) - (navigation.ts : Int)
                let metricScore : MetricScore :=
                  { event := some event
                    score := formatMicrosecondsTime fcpTime TimeUnit.SECONDS 2
                    metricName := MetricName.FCP
                    classification := scoreClassificationForFirstContentfulPaint fcpTime
                    navigation := some navigation
                    estimated := none }
                let table1 := storeMetricScore st.metricScoresByFrameId frameId navigationId metricScore
                Except.ok { st with metricScoresByFrameId := table1 }
              | EventKind.FirstPaint =>
                let paintTime : Int := (event.ts : Int) - (navigation.ts : Int)
                let metricScore : MetricScore :=
                  { event := some event
                    score := formatMicrosecondsTime paintTime TimeUnit.SECONDS 2
                    metricName := MetricName.FP
                    classification := ScoreClassification.UNCLASSIFIED
                    navigation := some navigation
                    estimated := none }
                let table1 := storeMetricScore st.metricScoresByFrameId frameId navigationId metricScore
                Except.ok { st with metricScoresByFrameId := table1 }
              | EventKind.MarkDOMContent =>
                let dclTime : Int := (event.ts : Int) - (navigation.ts : Int)
                let metricScore : MetricScore :=
                  { event := some event
                    score := formatMicrosecondsTime dclTime TimeUnit.SECONDS 2
                    metricName := MetricName.DCL
                    classification := scoreClassificationForDOMContentLoaded dclTime
                    navigation := some navigation
                    estimated := none }
                let table1 := storeMetricScore st.metricScoresByFrameId frameId navigationId metricScore
                Except.ok { st with metricScoresByFrameId := table1 }
              | EventKind.InteractiveTime =>
                let ttiValue : Int := (event.ts : Int) - (navigation.ts : Int)
                let tti : MetricScore :=
                  { event := some event
                    score := formatMicrosecondsTime ttiValue TimeUnit.SECONDS 2
                    metricName := MetricName.TTI
                    classification := scoreClassificationForTimeToInteractive ttiValue
                    navigation := some navigation
                    estimated := none }
                let table1 := storeMetricScore st.metricScoresByFrameId frameId navigationId tti
                let tbtValue : Int := millisecondsToMicroseconds (event.totalBlockingTimeMs : Int)
                let tbt : MetricScore :=
                  { event := some event
                    score := formatMicrosecondsTime tbtValue TimeUnit.MILLISECONDS 2
                    metricName := MetricName.TBT
                    classification := scoreClassificationForTotalBlockingTime tbtValue
                    navigation := some navigation
                    estimated := none }
                let table2 := storeMetricScore table1 frameId navigationId tbt
                Except.ok { st with metricScoresByFrameId := table2 }
              | EventKind.MarkLoad =>
                let loadTime : Int := (event.ts : Int) - (navigation.ts : Int)
                let metricScore : MetricScore :=
                  { event := some event
                    score := formatMicrosecondsTime loadTime TimeUnit.SECONDS 2
                    metricName := MetricName.L
                    classification := ScoreClassification.UNCLASSIFIED
                    navigation := some navigation
                    estimated := none }
                let table1 := storeMetricScore st.metricScoresByFrameId frameId navigationId metricScore
                Except.ok { st with metricScoresByFrameId := table1 }
              | EventKind.LargestContentfulPaintCandidate =>
                match event.candidateIndex with
                | none => Except.error "Largest Contenful Paint unexpectedly had no candidateIndex."
                | some candidateIndex =>
                  if candidateIndex = 0 then
                    Except.error "Largest Contenful Paint unexpectedly had no candidateIndex."
                  else
                    let lcpTime : Int := (event.ts : Int) - (navigation.ts : Int)
                    let lcp : MetricScore :=
                      { event := some event
                        score := formatMicrosecondsTime lcpTime TimeUnit.SECONDS 2
                        metricName := MetricName.LCP
                        classification := scoreClassificationForLargestContentfulPaint lcpTime
                        navigation := some navigation
                        estimated := none }
                    let metricsByNavigation := (mapGet frameId st.metricScoresByFrameId).getD []
                    let metrics := (mapGet navigationId metricsByNavigation).getD []
                    match mapGet MetricName.LCP metrics with
                    | none =>
                      let selected1 := setAdd st.selectedLCPCandidateEvents event
                      let table1 := storeMetricScore st.metricScoresByFrameId frameId navigationId lcp
                      Except.ok { st with selectedLCPCandidateEvents := selected1,
                                          metricScoresByFrameId := table1 }
                    | some lastLCPCandidate =>
                      match lastLCPCandidate.event with
                      | none => Except.ok st
                      | some lastLCPCandidateEvent =>
                        if isTraceEventLargestContentfulPaintCandidate lastLCPCandidateEvent then
                          match lastLCPCandidateEvent.candidateIndex with
                          | none => Except.ok st
                          | some lastCandidateIndex =>
                            if lastCandidateIndex = 0 then Except.ok st
                            else if lastCandidateIndex < candidateIndex then
                              let selected1 :=
                                setAdd (setDelete st.selectedLCPCandidateEvents lastLCPCandidateEvent) event
                              let table1 :=
                                storeMetricScore st.metricScoresByFrameId frameId navigationId lcp
                              Except.ok { st with selectedLCPCandidateEvents := selected1,
                                                  metricScoresByFrameId := table1 }
                            else Except.ok st
                        else Except.ok st
              | EventKind.LayoutShift => Except.ok st
              | EventKind.Other => Except.error "Unexpected event type"
            else Except.ok st

/-! ### TBT estimation -/

/-- The body of the root-task loop of `estimateTotalBlockingTimes`: walk the
given root node ids, look up each node and its event (missing node or event
throws), keep only non-instant `RunTask` events that do not end before FCP,
clip the portion before FCP and accumulate the clipped duration in excess of
the 50 ms long-task threshold. -/
def computeEstimatedTBT (mainThreadTree : ThreadTree)
    (mainThreadEvents : List RendererTaskEvent) (fcpTs : Nat) :
    List Nat → Int → Except String Int
  | [], tbt => Except.ok tbt
  | rootId :: rest, tbt =>
    match mapGet rootId mainThreadTree.nodes with
    | none => Except.error "Node not found for id."
    | some node =>
      match mainThreadEvents[node.eventIndex]? with
      | none => Except.error "Event not found for index."
      | some task =>
        if task.name ≠ "RunTask" ∨ task.isInstant then
          computeEstimatedTBT mainThreadTree mainThreadEvents fcpTs rest tbt
        else if task.ts + task.dur < fcpTs then
          computeEstimatedTBT mainThreadTree mainThreadEvents fcpTs rest tbt
        else
          let LONG_TASK_THRESHOLD : Int := millisecondsToMicroseconds 50
          let timeAfterFCP : Int :=
            if task.ts < fcpTs then (fcpTs : Int) - (task.ts : Int) else 0
          let clippedTaskDuration : Int := (task.dur : Int) - timeAfterFCP
          computeEstimatedTBT mainThreadTree mainThreadEvents fcpTs rest
            (tbt + (if clippedTaskDuration > LONG_TASK_THRESHOLD then
              clippedTaskDuration - LONG_TASK_THRESHOLD else 0))

/-- The main-thread lookup of `estimateTotalBlockingTimes`:
`[...renderer.threads.values()].find(thread => thread.name === 'CrRendererMain')`. -/
def findCrRendererMain (renderer : RendererProcess) : Option RendererThread :=
  (renderer.threads.map Prod.snd).find? (fun thread => thread.name = "CrRendererMain")

/-- One navigation's step of `estimateTotalBlockingTimes`: skip when a TBT
score exists or no FCP score exists, or the FCP score has no event, or the
Renderer handler has no data for the FCP event's process; throw when the
process has no main thread or no call tree; otherwise store the estimated
TBT score (with `estimated = true`) computed from the root tasks. -/
def estimateTBTForNav (renderer : RendererData) (frameId : String) (navigationId : String)
    (metrics : MetricsMap) (table : MetricTable) : Except String MetricTable :=
  match mapGet MetricName.TBT metrics with
  | some _ => Except.ok table
  | none =>
    match mapGet MetricName.FCP metrics with
    | none => Except.ok table
    | some navigationFCP =>
      match navigationFCP.event with
      | none => Except.ok table
      | some fcpEvent =>
        match mapGet fcpEvent.pid renderer.processes with
        | none => Except.ok table
        | some rendererProcess =>
          match findCrRendererMain rendererProcess with
          | none => Except.error "Main thread not found."
          | some mainThread =>
            match mainThread.tree with
            | none => Except.error "Main thread not found."
            | some mainThreadTree =>
              match computeEstimatedTBT mainThreadTree mainThread.events fcpEvent.ts
                  mainThreadTree.roots 0 with
              | Except.error e => Except.error e
              | Except.ok tbt =>
                let tbtMetric : MetricScore :=
                  { score := formatMicrosecondsTime tbt TimeUnit.MILLISECONDS 2
                    estimated := some true
                    metricName := MetricName.TBT
                    classification := scoreClassificationForTotalBlockingTime tbt
                    event := none
                    navigation := navigationFCP.navigation }
                Except.ok (storeMetricScore table frameId navigationId tbtMetric)

/-- The inner (per-navigation) loop of `estimateTotalBlockingTimes`. -/
def estimateTBTNavLoop (renderer : RendererData) (frameId : String) :
    List (String × MetricsMap) → MetricTable → Except String MetricTable
  | [], table => Except.ok table
  | (navigationId, metrics) :: rest, table =>
    match estimateTBTForNav renderer frameId navigationId metrics table with
    | Except.error e => Except.error e
    | Except.ok table2 => estimateTBTNavLoop renderer frameId rest table2

/-- The outer (per-frame) loop of `estimateTotalBlockingTimes`. -/
def estimateTBTFrameLoop (renderer : RendererData) :
    List (String × NavigationMap) → MetricTable → Except String MetricTable
  | [], table => Except.ok table
  | (frameId, metricsByNavigation) :: rest, table =>
    match estimateTBTNavLoop renderer frameId metricsByNavigation table with
    | Except.error e => Except.error e
    | Except.ok table2 => estimateTBTFrameLoop renderer rest table2

/-- `estimateTotalBlockingTimes`: iterate the metric table (the iteration
sequence is the table itself; each step only touches its own navigation's
TBT entry, so iterating the entry list while threading the updated table is
the in-place JS loop). -/
def estimateTotalBlockingTimes (renderer : RendererData) (table : MetricTable) :
    Except String MetricTable :=
  estimateTBTFrameLoop renderer table table

/-! ### Finalize -/

/-- `gatherFinalLCPEvents`: the events of the LCP scores of every navigation
of every frame. -/
def gatherFinalLCPEvents (table : MetricTable) : List TraceEvent :=
  ((table.map Prod.snd).flatMap (fun frameData => frameData.map Prod.snd)).filterMap
    (fun navigationData => (mapGet MetricName.LCP navigationData).bind (fun s => s.event))

/-- The main-frame filter of `finalize`:
`markerEvents.filter(event => getFrameIdForPageLoadEvent(event) === mainFrame)`,
with the frame lookup's exception propagating. -/
def filterByMainFrame (mainFrame : String) :
    List TraceEvent → Except String (List TraceEvent)
  | [] => Except.ok []
  | event :: rest =>
    match getFrameIdForPageLoadEvent event with
    | Except.error e => Except.error e
    | Except.ok frameId =>
      match filterByMainFrame mainFrame rest with
      | Except.error e => Except.error e
      | Except.ok filtered =>
        if frameId = mainFrame then Except.ok (event :: filtered) else Except.ok filtered

/-- The per-event loop of `finalize`: resolve each buffered event's
navigation and store its metrics when the navigation was not filtered out. -/
def processSortedEvents (meta : MetaData) :
    List TraceEvent → HandlerState → Except String HandlerState
  | [], st => Except.ok st
  | pageLoadEvent :: rest, st =>
    match getNavigationForPageLoadEvent meta pageLoadEvent with
    | Except.error e => Except.error e
    | Except.ok none => processSortedEvents meta rest st
    | Except.ok (some navigation) =>
      match storePageLoadMetricAgainstNavigationId meta navigation pageLoadEvent st with
      | Except.error e => Except.error e
      | Except.ok st2 => processSortedEvents meta rest st2

/-- The timestamp comparator of the two `sort` calls in `finalize`,
`(a, b) => a.ts - b.ts`, as the corresponding `≤` relation.  JS
`Array.prototype.sort` is a stable sort, and all stable sorts of a list
under the same total preorder produce the same output, so the stable
insertion sort used below is extensionally the JS sort. -/
def tsLe (a b : TraceEvent) : Prop :=
  a.ts ≤ b.ts

instance : DecidableRel tsLe :=
  fun a b => Nat.decLe a.ts b.ts

instance : IsTotal TraceEvent tsLe :=
  ⟨fun a b => Nat.le_total a.ts b.ts⟩

instance : IsTrans TraceEvent tsLe :=
  ⟨fun _ _ _ h1 h2 => Nat.le_trans h1 h2⟩

/-- `finalize`: sort the buffer by timestamp, attribute and store every
buffered event, run the TBT-estimation pass, then assemble the marker list:
final LCP events plus all buffered non-LCP-candidate events, kept only if
marker events of the main frame, sorted by timestamp. -/
def finalize (meta : MetaData) (renderer : RendererData) (st : HandlerState) :
    Except String HandlerState :=
  let sortedEvents := List.insertionSort tsLe st.pageLoadEventsArray
  match processSortedEvents meta sortedEvents
      { st with pageLoadEventsArray := sortedEvents } with
  | Except.error e => Except.error e
  | Except.ok st1 =>
    match estimateTotalBlockingTimes renderer st1.metricScoresByFrameId with
    | Except.error e => Except.error e
    | Except.ok table2 =>
      let st2 := { st1 with metricScoresByFrameId := table2 }
      let allFinalLCPEvents := gatherFinalLCPEvents table2
      let mainFrame := meta.mainFrameId
      let allEventsButLCP :=
        st2.pageLoadEventsArray.filter
          (fun event => !isTraceEventLargestContentfulPaintCandidate event)
      let markerEvents := (allFinalLCPEvents ++ allEventsButLCP).filter isTraceEventMarkerEvent
      match filterByMainFrame mainFrame markerEvents with
      | Except.error e => Except.error e
      | Except.ok filtered =>
        Except.ok { st2 with allMarkerEvents := List.insertionSort tsLe filtered }

/-! ### Reference-level model of the `data()` snapshot

The pure model above uses value semantics, so it cannot express aliasing.
To settle how the `data()` snapshot behaves under subsequent mutation we
model the JS reference structure of `metricScoresByFrameId` explicitly: the
outer `Map` holds references to per-frame navigation `Map` objects, which
hold references to per-navigation metric `Map` objects; all three kinds of
`Map` object live in a heap addressed by numeric references.
`data()` evaluates `new Map(metricScoresByFrameId)`, which copies only the
outer list of (frame id, reference) entries and shares the referenced inner
`Map` objects. -/

/-- The heap of `Map` objects backing `metricScoresByFrameId`.  `outer` is
the handler's own outer map (frame id to reference of a navigation map),
`mids` the navigation-map objects (navigation id to reference of a metrics
map), `inners` the metrics-map objects, and `fresh` the next unused
reference. -/
structure JSHeap where
  outer : List (String × Nat)
  mids : List (Nat × List (String × Nat))
  inners : List (Nat × MetricsMap)
  fresh : Nat
  deriving DecidableEq

/-- `storeMetricScore` at the reference level: `getWithDefault` allocates a
missing navigation map or metrics map and links it, then the metric entry is
deleted and re-inserted in the (shared) metrics-map object. -/
def storeMetricScoreHeap (h : JSHeap) (frameId : String) (navigationId : String)
    (metricScore : MetricScore) : JSHeap :=
  let step1 :=
    match mapGet frameId h.outer with
    | some midRef => (midRef, h)
    | none =>
      (h.fresh,
        { h with
          outer := mapSet h.outer frameId h.fresh
          mids := mapSet h.mids h.fresh []
          fresh := h.fresh + 1 })
  let midRef := step1.1
  let h1 := step1.2
  let midMap := (mapGet midRef h1.mids).getD []
  let step2 :=
    match mapGet navigationId midMap with
    | some innerRef => (innerRef, h1)
    | none =>
      (h1.fresh,
        { h1 with
          mids := mapSet h1.mids midRef (mapSet midMap navigationId h1.fresh)
          inners := mapSet h1.inners h1.fresh []
          fresh := h1.fresh + 1 })
  let innerRef := step2.1
  let h2 := step2.2
  let inner := (mapGet innerRef h2.inners).getD []
  let inner2 := mapSet (mapDelete inner metricScore.metricName) metricScore.metricName metricScore
  { h2 with inners := mapSet h2.inners innerRef inner2 }

/-- `reset()` at the reference level: `metricScoresByFrameId.clear()` empties
the handler's outer map; the previously allocated inner `Map` objects are
untouched (snapshots may still reference them). -/
def resetHeap (h : JSHeap) : JSHeap :=
  { h with outer := [] }

/-- `data()` at the reference level: `new Map(metricScoresByFrameId)` copies
the outer entry list only; the references it contains still point into the
shared heap. -/
def dataHeap (h : JSHeap) : List (String × Nat) :=
  h.outer

/-- The value a caller observes when reading a snapshot against the current
heap: dereference every navigation-map and metrics-map reference. -/
def viewSnapshot (snapshot : List (String × Nat)) (h : JSHeap) : MetricTable :=
  snapshot.map (fun p =>
    (p.1, ((mapGet p.2 h.mids).getD []).map (fun q =>
      (q.1, (mapGet q.2 h.inners).getD []))))

/-- Well-formedness of the heap as produced by the handler: every reference
is below `fresh`; outer keys are `Map` keys, hence distinct; a
navigation-map reference determines its owning frame (each frame owns its
own navigation-map object); each navigation map has distinct keys; and a
metrics-map reference determines its owning (navigation map, navigation id)
(each navigation owns its own metrics-map object). -/
def heapWF (h : JSHeap) : Prop :=
  (∀ p ∈ h.outer, p.2 < h.fresh) ∧
  (∀ p ∈ h.mids, p.1 < h.fresh) ∧
  (∀ p ∈ h.mids, ∀ q ∈ p.2, q.2 < h.fresh) ∧
  (∀ p ∈ h.inners, p.1 < h.fresh) ∧
  (h.outer.map Prod.fst).Nodup ∧
  (∀ p ∈ h.outer, ∀ q ∈ h.outer, p.2 = q.2 → p.1 = q.1) ∧
  (∀ p ∈ h.mids, (p.2.map Prod.fst).Nodup) ∧
  (∀ p ∈ h.mids, ∀ q ∈ h.mids, ∀ a ∈ p.2, ∀ b ∈ q.2, a.2 = b.2 → p.1 = q.1 ∧ a.1 = b.1)

/-- Well-formedness of a concrete heap is checked by evaluation in the
witnesses. -/
instance heapWFDecidable (h : JSHeap) : Decidable (heapWF h) := by
  unfold heapWF
  infer_instance

/-! ### Reading the metric table -/

/-- The metrics map stored for a (frame, navigation) pair (empty when the
pair has no entry). -/
def metricsAt (table : MetricTable) (frameId : String) (navigationId : String) : MetricsMap :=
  (mapGet navigationId ((mapGet frameId table).getD [])).getD []

/-- The score stored for (frame, navigation, metric name), if any. -/
def getMetric (table : MetricTable) (frameId : String) (navigationId : String)
    (m : MetricName) : Option MetricScore :=
  mapGet m (metricsAt table frameId navigationId)

/-- Distinct keys at the two outer levels of the metric table, as maintained
by JS `Map`s. -/
def tableWF (table : MetricTable) : Prop :=
  (table.map Prod.fst).Nodup ∧ ∀ p ∈ table, (p.2.map Prod.fst).Nodup

/-! ### Concrete trace data used by witnesses and counterexamples -/

/-- A navigation of frame `F` starting at time 0, with id `nav1`. -/
def navOne : TraceEventNavigationStart :=
  { navigationId := some "nav1", ts := 0 }

/-- Meta-handler data with main frame `F`, the single navigation `navOne`,
and renderer process 1 active on `F` during `[0, 10^9]`. -/
def metaOne : MetaData :=
  { navigationsByNavigationId := [("nav1", navOne)]
    navigationsByFrameId := [("F", [navOne])]
    rendererProcessesByFrame := [("F", [(1, { window := { min := 0, max := 1000000000 } })])]
    mainFrameId := "F" }

/-- A template event of the given kind and timestamp in frame `F`,
process 1. -/
def baseEvent (k : EventKind) (ts : Nat) : TraceEvent :=
  { name := k, ts := ts, pid := 1, argsFrame := "F", dataFrame := none,
    navigationId := none, candidateIndex := none, totalBlockingTimeMs := 0 }

/-- An InteractiveTime event reporting `total_blocking_time_ms = 120`. -/
def itEvent120 : TraceEvent :=
  { baseEvent EventKind.InteractiveTime 2000000 with totalBlockingTimeMs := 120 }

/-- An FCP event for `nav1` at t = 1,000,000 µs. -/
def fcpEventOne : TraceEvent :=
  { baseEvent EventKind.FirstContentfulPaint 1000000 with navigationId := some "nav1" }

/-- Renderer data with no processes. -/
def rendererNone : RendererData :=
  { processes := [] }

/-- Renderer data for process 1: a `CrRendererMain` thread whose call tree
has one root task, a 200 ms `RunTask` starting at t = 1,050,000 µs. -/
def rendererMain : RendererData :=
  { processes := [(1,
      { threads := [(10,
          { name := "CrRendererMain"
            tree := some { roots := [0], nodes := [(0, { eventIndex := 0 })] }
            events := [{ name := "RunTask", ts := 1050000, dur := 200000, isInstant := false }] })] })] }

/-- An LCP candidate for `nav1` with the given timestamp and candidate
index. -/
def lcpCandidate (ts : Nat) (idx : Nat) : TraceEvent :=
  { baseEvent EventKind.LargestContentfulPaintCandidate ts with
    navigationId := some "nav1", candidateIndex := some idx }

/-- The three LCP candidates of the monotonic-selection scenario. -/
def lcpOne : TraceEvent := lcpCandidate 100 1

/-- Candidate index 2. -/
def lcpTwo : TraceEvent := lcpCandidate 200 2

/-- Candidate index 3. -/
def lcpThree : TraceEvent := lcpCandidate 300 3

/-- A MarkDOMContent event in the main frame. -/
def dclMain : TraceEvent :=
  { baseEvent EventKind.MarkDOMContent 1500000 with dataFrame := some "F" }

/-- A MarkDOMContent event in a non-main frame `G` (unknown to `metaOne`,
so its navigation resolves to null and it is never stored). -/
def dclOther : TraceEvent :=
  { baseEvent EventKind.MarkDOMContent 1200000 with dataFrame := some "G", argsFrame := "G" }

/-- An FCP event carrying no navigation id. -/
def fcpNoNav : TraceEvent :=
  baseEvent EventKind.FirstContentfulPaint 500

/-- An FCP event whose navigation id is the empty string. -/
def fcpEmptyNav : TraceEvent :=
  { baseEvent EventKind.FirstContentfulPaint 500 with navigationId := some "" }

/-- An FCP event referencing a navigation the Meta handler filtered out. -/
def fcpNoise : TraceEvent :=
  { baseEvent EventKind.FirstContentfulPaint 500 with navigationId := some "ghost" }

/-- An LCP candidate with no candidate index. -/
def lcpNoIndex : TraceEvent :=
  { baseEvent EventKind.LargestContentfulPaintCandidate 500 with navigationId := some "nav1" }

/-- An LCP candidate whose candidate index is 0 (present but falsy). -/
def lcpZeroIndex : TraceEvent :=
  { baseEvent EventKind.LargestContentfulPaintCandidate 500 with
    navigationId := some "nav1", candidateIndex := some 0 }

/-- A MarkDOMContent event with no frame id in its payload. -/
def dclNoFrame : TraceEvent :=
  baseEvent EventKind.MarkDOMContent 500

/-- A LayoutShift event (not a page-load event: never buffered). -/
def layoutShiftEvent : TraceEvent :=
  baseEvent EventKind.LayoutShift 700

/-- The streaming state of the marker-assembly scenario: events of two
frames, two LCP candidates, an InteractiveTime event. -/
def stMarkers : HandlerState :=
  handleEvents emptyHandlerState [dclOther, fcpEventOne, dclMain, itEvent120, lcpOne, lcpThree]

/-- The streaming state of the monotonic-LCP scenario. -/
def stLcp : HandlerState :=
  handleEvents emptyHandlerState [lcpOne, lcpTwo, lcpThree]

/-- The streaming state holding only the authoritative-TBT example event. -/
def stInteractive : HandlerState :=
  handleEvents emptyHandlerState [itEvent120]

/-- The streaming state holding only the estimated-TBT example event. -/
def stFcp : HandlerState :=
  handleEvents emptyHandlerState [fcpEventOne]

/-- Extract the success state of a finalize run (defaulting to the empty
state, only used on runs proved to succeed). -/
def resultOf (r : Except String HandlerState) : HandlerState :=
  match r with
  | Except.ok st => st
  | Except.error _ => emptyHandlerState

/-- A concrete FCP metric score used by the aliasing counterexample. -/
def scoreFcpFive : MetricScore :=
  { score := formatMicrosecondsTime 5000000 TimeUnit.SECONDS 2
    metricName := MetricName.FCP
    classification := ScoreClassification.BAD
    event := none
    navigation := none
    estimated := none }

/-- A concrete TBT metric score used by the aliasing counterexample. -/
def scoreTbtTen : MetricScore :=
  { score := formatMicrosecondsTime 10000 TimeUnit.MILLISECONDS 2
    metricName := MetricName.TBT
    classification := ScoreClassification.GOOD
    event := none
    navigation := none
    estimated := none }

/-- A heap in which the handler's table maps frame `F`, navigation `nav1`
to a metrics map holding `scoreFcpFive`. -/
def heapOne : JSHeap :=
  { outer := [("F", 0)]
    mids := [(0, [("nav1", 1)])]
    inners := [(1, [(MetricName.FCP, scoreFcpFive)])]
    fresh := 2 }

/-- The finalize result of feeding only `fcpNoise`: no metric score stored,
the event still appears as a main-frame marker. -/
def stNoiseResult : HandlerState :=
  { metricScoresByFrameId := []
    pageLoadEventsArray := [fcpNoise]
    allMarkerEvents := [fcpNoise]
    selectedLCPCandidateEvents := [] }

/-- The estimated TBT score the handler stores in the estimated-TBT example
run (`stFcp` with `rendererMain`): 150 ms, `estimated = true`. -/
def tbtEstimateScoreB : MetricScore :=
  { score := formatMicrosecondsTime 150000 TimeUnit.MILLISECONDS 2
    estimated := some true
    metricName := MetricName.TBT
    classification := scoreClassificationForTotalBlockingTime 150000
    event := none
    navigation := some navOne }

/-! ### TBT provenance shapes -/

/-- Shape of an authoritative TBT score: built by the InteractiveTime branch
of the store step, so its `estimated` field is unset, it carries its source
InteractiveTime event, and its value is the event's
`total_blocking_time_ms` payload converted to microseconds. -/
def authoritativeTBTShape (s : MetricScore) : Prop :=
  s.metricName = MetricName.TBT ∧
  s.estimated = none ∧
  ∃ e, s.event = some e ∧ e.name = EventKind.InteractiveTime ∧
    s.score = formatMicrosecondsTime
      (millisecondsToMicroseconds (e.totalBlockingTimeMs : Int)) TimeUnit.MILLISECONDS 2 ∧
    s.classification = scoreClassificationForTotalBlockingTime
      (millisecondsToMicroseconds (e.totalBlockingTimeMs : Int))

/-- Shape of an estimated TBT score relative to the metrics map of its
(frame, navigation) and the Renderer handler's data: the navigation has an
FCP score whose event's process has a `CrRendererMain` thread with a call
tree, and the stored value is the root-task walk of that tree clipped at
the FCP timestamp, with `estimated = true` and no source event. -/
def estimatedTBTShape (renderer : RendererData) (metrics : MetricsMap) (s : MetricScore) : Prop :=
  ∃ navigationFCP fcpEvent rendererProcess mainThread mainThreadTree v,
    mapGet MetricName.FCP metrics = some navigationFCP ∧
    navigationFCP.event = some fcpEvent ∧
    mapGet fcpEvent.pid renderer.processes = some rendererProcess ∧
    findCrRendererMain rendererProcess = some mainThread ∧
    mainThread.tree = some mainThreadTree ∧
    computeEstimatedTBT mainThreadTree mainThread.events fcpEvent.ts mainThreadTree.roots 0 =
      Except.ok v ∧
    s = { score := formatMicrosecondsTime v TimeUnit.MILLISECONDS 2
          estimated := some true
          metricName := MetricName.TBT
          classification := scoreClassificationForTotalBlockingTime v
          event := none
          navigation := navigationFCP.navigation }

/-! ### Association-list lemmas -/

theorem mapGet_mapSet {α β : Type} [DecidableEq α] (m : List (α × β)) (k k' : α) (v : β) :
    mapGet k' (mapSet m k v) = if k = k' then some v else mapGet k' m := by
  induction m with
  | nil => simp [mapSet, mapGet]
  | cons p rest ih =>
    obtain ⟨k0, v0⟩ := p
    by_cases h0 : k0 = k
    · subst h0
      by_cases h : k0 = k' <;> simp [mapSet, mapGet, h]
    · by_cases h : k0 = k'
      · subst h
        have hkk : ¬ k = k0 := fun he => h0 he.symm
        simp [mapSet, mapGet, h0, hkk]
      · simp [mapSet, mapGet, h0, h, ih]

theorem mapGet_mapDelete {α β : Type} [DecidableEq α] (m : List (α × β)) (k k' : α) :
    mapGet k' (mapDelete m k) = if k = k' then none else mapGet k' m := by
  induction m with
  | nil => simp [mapDelete, mapGet]
  | cons p rest ih =>
    obtain ⟨k0, v0⟩ := p
    by_cases h0 : k0 = k
    · subst h0
      have hd : mapDelete ((k0, v0) :: rest) k0 = mapDelete rest k0 := by
        simp [mapDelete, List.filter_cons]
      rw [hd, ih]
      by_cases h : k0 = k' <;> simp [mapGet, h]
    · have hd : mapDelete ((k0, v0) :: rest) k = (k0, v0) :: mapDelete rest k := by
        simp [mapDelete, List.filter_cons, h0]
      rw [hd]
      by_cases h : k0 = k'
      · subst h
        have hkk : ¬ k = k0 := fun he => h0 he.symm
        simp [mapGet, hkk]
      · simp [mapGet, h, ih]

theorem mapGet_some_mem {α β : Type} [DecidableEq α] {m : List (α × β)} {k : α} {v : β}
    (h : mapGet k m = some v) : (k, v) ∈ m := by
  induction m with
  | nil => simp [mapGet] at h
  | cons p rest ih =>
    obtain ⟨k0, v0⟩ := p
    by_cases h0 : k0 = k
    · subst h0
      simp [mapGet] at h
      simp [h]
    · simp [mapGet, h0] at h
      exact List.mem_cons_of_mem _ (ih h)

theorem mem_mapGet_of_nodup {α β : Type} [DecidableEq α] {m : List (α × β)} {k : α} {v : β}
    (hnd : (m.map Prod.fst).Nodup) (hmem : (k, v) ∈ m) : mapGet k m = some v := by
  induction m with
  | nil => simp at hmem
  | cons p rest ih =>
    obtain ⟨k0, v0⟩ := p
    rw [List.map_cons, List.nodup_cons] at hnd
    rcases List.mem_cons.mp hmem with heq | hmem2
    · cases heq
      simp [mapGet]
    · by_cases h0 : k0 = k
      · subst h0
        exact absurd (List.mem_map_of_mem Prod.fst hmem2) hnd.1
      · simp only [mapGet, if_neg h0]
        exact ih hnd.2 hmem2

theorem mem_mapSet {α β : Type} [DecidableEq α] {m : List (α × β)} {k : α} {v : β} {p : α × β}
    (h : p ∈ mapSet m k v) : p = (k, v) ∨ p ∈ m := by
  induction m with
  | nil => simpa [mapSet] using h
  | cons q rest ih =>
    obtain ⟨k0, v0⟩ := q
    by_cases h0 : k0 = k
    · subst h0
      simp only [mapSet, if_pos rfl] at h
      rcases List.mem_cons.mp h with heq | hmem
      · exact Or.inl heq
      · exact Or.inr (List.mem_cons_of_mem _ hmem)
    · simp only [mapSet, if_neg h0] at h
      rcases List.mem_cons.mp h with heq | hmem
      · exact Or.inr (by simp [heq])
      · rcases ih hmem with h2 | h2
        · exact Or.inl h2
        · exact Or.inr (List.mem_cons_of_mem _ h2)

theorem keys_mapSet_nodup {α β : Type} [DecidableEq α] {m : List (α × β)} (k : α) (v : β)
    (hnd : (m.map Prod.fst).Nodup) : ((mapSet m k v).map Prod.fst).Nodup := by
  induction m with
  | nil => simp [mapSet]
  | cons p rest ih =>
    obtain ⟨k0, v0⟩ := p
    rw [List.map_cons, List.nodup_cons] at hnd
    by_cases h0 : k0 = k
    · subst h0
      have hgoal : List.map Prod.fst (mapSet ((k0, v0) :: rest) k0 v) =
          k0 :: List.map Prod.fst rest := by
        simp [mapSet]
      rw [hgoal, List.nodup_cons]
      exact ⟨by simpa using hnd.1, hnd.2⟩
    · simp only [mapSet, if_neg h0, List.map_cons, List.nodup_cons]
      refine ⟨?_, ih hnd.2⟩
      intro hx
      rcases List.mem_map.mp hx with ⟨q, hq, hqk⟩
      rcases mem_mapSet hq with h2 | h2
      · apply h0
        rw [h2] at hqk
        simpa using hqk.symm
      · have hq1 : q.1 ∈ List.map Prod.fst rest := List.mem_map_of_mem Prod.fst h2
        rw [hqk] at hq1
        exact absurd hq1 (by simpa using hnd.1)

theorem mapGet_map {α β γ : Type} [DecidableEq α] (g : α × β → γ) (l : List (α × β)) (k : α) :
    mapGet k (l.map (fun p => (p.1, g p))) = (mapGet k l).map (fun v => g (k, v)) := by
  induction l with
  | nil => simp [mapGet]
  | cons p rest ih =>
    obtain ⟨k0, v0⟩ := p
    by_cases h : k0 = k
    · subst h
      simp [mapGet]
    · simp [mapGet, h, ih]

theorem mapGet_eq_none_iff {α β : Type} [DecidableEq α] {l : List (α × β)} {k : α} :
    mapGet k l = none ↔ k ∉ l.map Prod.fst := by
  induction l with
  | nil => simp [mapGet]
  | cons p rest ih =>
    obtain ⟨k0, v0⟩ := p
    by_cases h : k0 = k
    · subst h
      simp [mapGet]
    · simp only [mapGet, if_neg h, List.map_cons, List.mem_cons]
      rw [ih]
      constructor
      · intro h1 h2
        rcases h2 with h2 | h2
        · exact h (h2.symm)
        · exact h1 h2
      · intro h1 h2
        exact h1 (Or.inr h2)

theorem mapSet_append_of_not_mem {α β : Type} [DecidableEq α] {l : List (α × β)} {k : α}
    (h : k ∉ l.map Prod.fst) (v : β) : mapSet l k v = l ++ [(k, v)] := by
  induction l with
  | nil => simp [mapSet]
  | cons p rest ih =>
    obtain ⟨k0, v0⟩ := p
    simp only [List.map_cons, List.mem_cons] at h
    have h1 : ¬ k0 = k := fun he => h (Or.inl he.symm)
    have h2 : k ∉ rest.map Prod.fst := fun he => h (Or.inr he)
    simp only [mapSet, if_neg h1, List.cons_append]
    rw [ih h2]

theorem mapSet_map_of_mem {α β γ : Type} [DecidableEq α] {l : List (α × β)} {k : α}
    (hnd : (l.map Prod.fst).Nodup) (hmem : k ∈ l.map Prod.fst) (g : α × β → γ) (w : γ) :
    mapSet (l.map (fun p => (p.1, g p))) k w =
      l.map (fun p => if p.1 = k then (k, w) else (p.1, g p)) := by
  induction l with
  | nil => simp at hmem
  | cons p rest ih =>
    obtain ⟨k0, v0⟩ := p
    rw [List.map_cons, List.nodup_cons] at hnd
    by_cases h : k0 = k
    · subst h
      simp only [List.map_cons, mapSet, if_pos rfl]
      have hrest : rest.map (fun p => if p.1 = k0 then (k0, w) else (p.1, g p)) =
          rest.map (fun p => (p.1, g p)) := by
        apply List.map_congr_left
        intro q hq
        have : ¬ q.1 = k0 := by
          intro he
          have hq1 : q.1 ∈ rest.map Prod.fst := List.mem_map_of_mem Prod.fst hq
          rw [he] at hq1
          exact hnd.1 hq1
        rw [if_neg this]
      simp [hrest]
    · have hmem2 : k ∈ rest.map Prod.fst := by
        simp only [List.map_cons, List.mem_cons] at hmem
        rcases hmem with h1 | h1
        · exact absurd h1.symm h
        · exact h1
      simp only [List.map_cons, mapSet]
      rw [if_neg h, ih hnd.2 hmem2]
      have : ¬ k0 = k := h
      simp [this]

theorem getMetric_storeMetricScore (table : MetricTable) (frameId navigationId : String)
    (ms : MetricScore) (f n : String) (m : MetricName) :
    getMetric (storeMetricScore table frameId navigationId ms) f n m =
      if frameId = f ∧ navigationId = n ∧ ms.metricName = m then some ms
      else getMetric table f n m := by
  by_cases hf : frameId = f
  · subst hf
    by_cases hn : navigationId = n
    · subst hn
      by_cases hm : ms.metricName = m
      · subst hm
        simp [getMetric, metricsAt, storeMetricScore, mapGet_mapSet, mapGet_mapDelete]
      · simp [getMetric, metricsAt, storeMetricScore, mapGet_mapSet, mapGet_mapDelete, hm]
    · simp [getMetric, metricsAt, storeMetricScore, mapGet_mapSet, mapGet_mapDelete, hn]
  · simp [getMetric, metricsAt, storeMetricScore, mapGet_mapSet, mapGet_mapDelete, hf]

theorem tableWF_storeMetricScore {table : MetricTable} (frameId navigationId : String)
    (ms : MetricScore) (hwf : tableWF table) :
    tableWF (storeMetricScore table frameId navigationId ms) := by
  obtain ⟨hout, hin⟩ := hwf
  simp only [tableWF, storeMetricScore]
  constructor
  · exact keys_mapSet_nodup _ _ hout
  · intro p hp
    rcases mem_mapSet hp with h | h
    · rw [h]
      apply keys_mapSet_nodup
      cases hget : mapGet frameId table with
      | none => simp [hget]
      | some navs => simpa [hget] using hin _ (mapGet_some_mem hget)
    · exact hin _ h

/-! ### Finalize helper lemmas -/

theorem isTraceEventMarkerEvent_iff (e : TraceEvent) :
    isTraceEventMarkerEvent e = true ↔
      (e.name = EventKind.MarkDOMContent ∨ e.name = EventKind.MarkLoad ∨
       e.name = EventKind.FirstPaint ∨ e.name = EventKind.FirstContentfulPaint ∨
       e.name = EventKind.LargestContentfulPaintCandidate) := by
  cases h : e.name <;>
    simp [isTraceEventMarkerEvent, markerTypeGuards,
      isTraceEventMarkDOMContent, isTraceEventMarkLoad, isTraceEventFirstPaint,
      isTraceEventFirstContentfulPaint, isTraceEventLargestContentfulPaintCandidate, h]

theorem filterByMainFrame_ok_mem {mf : String} {l r : List TraceEvent}
    (h : filterByMainFrame mf l = Except.ok r) :
    ∀ e, e ∈ r ↔ (e ∈ l ∧ getFrameIdForPageLoadEvent e = Except.ok mf) := by
  induction l generalizing r with
  | nil =>
    simp only [filterByMainFrame] at h
    obtain rfl : ([] : List TraceEvent) = r := by simpa using h
    simp
  | cons a rest ih =>
    simp only [filterByMainFrame] at h
    cases hf : getFrameIdForPageLoadEvent a with
    | error err => rw [hf] at h; simp at h
    | ok fid =>
      rw [hf] at h
      simp only [] at h
      cases hrec : filterByMainFrame mf rest with
      | error err => rw [hrec] at h; simp at h
      | ok filtered =>
        rw [hrec] at h
        simp only [] at h
        by_cases hmf : fid = mf
        · rw [if_pos hmf] at h
          obtain rfl : a :: filtered = r := by simpa using h
          subst hmf
          intro e
          constructor
          · intro he
            rcases List.mem_cons.mp he with rfl | he2
            · exact ⟨List.mem_cons_self _ _, hf⟩
            · obtain ⟨h1, h2⟩ := (ih hrec e).mp he2
              exact ⟨List.mem_cons_of_mem _ h1, h2⟩
          · rintro ⟨he, hfe⟩
            rcases List.mem_cons.mp he with rfl | he2
            · exact List.mem_cons_self _ _
            · exact List.mem_cons_of_mem _ ((ih hrec e).mpr ⟨he2, hfe⟩)
        · rw [if_neg hmf] at h
          obtain rfl : filtered = r := by simpa using h
          intro e
          constructor
          · intro he
            obtain ⟨h1, h2⟩ := (ih hrec e).mp he
            exact ⟨List.mem_cons_of_mem _ h1, h2⟩
          · rintro ⟨he, hfe⟩
            rcases List.mem_cons.mp he with rfl | he2
            · rw [hf] at hfe
              exact absurd (by simpa using hfe) hmf
            · exact (ih hrec e).mpr ⟨he2, hfe⟩

theorem finalize_ok_destruct {meta : MetaData} {renderer : RendererData}
    {st st' : HandlerState} (h : finalize meta renderer st = Except.ok st') :
    ∃ st1 table2 filtered,
      processSortedEvents meta (List.insertionSort tsLe st.pageLoadEventsArray)
        { st with pageLoadEventsArray := List.insertionSort tsLe st.pageLoadEventsArray } =
        Except.ok st1 ∧
      estimateTotalBlockingTimes renderer st1.metricScoresByFrameId = Except.ok table2 ∧
      filterByMainFrame meta.mainFrameId
        ((gatherFinalLCPEvents table2 ++
          st1.pageLoadEventsArray.filter
            (fun event => !isTraceEventLargestContentfulPaintCandidate event)).filter
          isTraceEventMarkerEvent) = Except.ok filtered ∧
      st' = { st1 with metricScoresByFrameId := table2, allMarkerEvents := List.insertionSort tsLe filtered } := by
  simp only [finalize] at h
  cases hp : processSortedEvents meta (List.insertionSort tsLe st.pageLoadEventsArray)
      { st with pageLoadEventsArray := List.insertionSort tsLe st.pageLoadEventsArray } with
  | error err => rw [hp] at h; simp at h
  | ok st1 =>
    rw [hp] at h
    simp only [] at h
    cases hest : estimateTotalBlockingTimes renderer st1.metricScoresByFrameId with
    | error err => rw [hest] at h; simp at h
    | ok table2 =>
      rw [hest] at h
      simp only [] at h
      cases hfil : filterByMainFrame meta.mainFrameId
          ((gatherFinalLCPEvents table2 ++
            st1.pageLoadEventsArray.filter
              (fun event => !isTraceEventLargestContentfulPaintCandidate event)).filter
            isTraceEventMarkerEvent) with
      | error err => rw [hfil] at h; simp at h
      | ok filtered =>
        rw [hfil] at h
        simp only [] at h
        exact ⟨st1, table2, filtered, rfl, hest, hfil, (by simpa using h.symm)⟩

theorem storePageLoadMetric_fields {meta : MetaData} {nav : TraceEventNavigationStart}
    {e : TraceEvent} {st st2 : HandlerState}
    (h : storePageLoadMetricAgainstNavigationId meta nav e st = Except.ok st2) :
    st2.pageLoadEventsArray = st.pageLoadEventsArray ∧
    st2.allMarkerEvents = st.allMarkerEvents := by
  simp only [storePageLoadMetricAgainstNavigationId] at h
  repeat' split at h
  all_goals
    first
    | (injection h with h2; subst h2; exact ⟨rfl, rfl⟩)
    | injection h

theorem processSortedEvents_fields {meta : MetaData} :
    ∀ {evs : List TraceEvent} {st st1 : HandlerState},
      processSortedEvents meta evs st = Except.ok st1 →
      st1.pageLoadEventsArray = st.pageLoadEventsArray ∧
      st1.allMarkerEvents = st.allMarkerEvents := by
  intro evs
  induction evs with
  | nil =>
    intro st st1 h
    obtain rfl : st = st1 := by simpa [processSortedEvents] using h
    exact ⟨rfl, rfl⟩
  | cons e rest ih =>
    intro st st1 h
    simp only [processSortedEvents] at h
    cases hn : getNavigationForPageLoadEvent meta e with
    | error err => rw [hn] at h; simp at h
    | ok o =>
      rw [hn] at h
      cases o with
      | none =>
        simp only [] at h
        exact ih h
      | some navigation =>
        simp only [] at h
        cases hs : storePageLoadMetricAgainstNavigationId meta navigation e st with
        | error err => rw [hs] at h; simp at h
        | ok stMid =>
          rw [hs] at h
          simp only [] at h
          have hmid := storePageLoadMetric_fields hs
          have hrest := ih h
          exact ⟨hrest.1.trans hmid.1, hrest.2.trans hmid.2⟩

/-! ### Phase-1 TBT provenance lemmas -/

theorem storePageLoadMetric_tbt {meta : MetaData} {nav : TraceEventNavigationStart}
    {e : TraceEvent} {st st2 : HandlerState}
    (h : storePageLoadMetricAgainstNavigationId meta nav e st = Except.ok st2) :
    ∀ f n s, getMetric st2.metricScoresByFrameId f n MetricName.TBT = some s →
      authoritativeTBTShape s ∨
      getMetric st.metricScoresByFrameId f n MetricName.TBT = some s := by
  intro f n s
  cases hk : e.name
  case InteractiveTime =>
    simp only [storePageLoadMetricAgainstNavigationId, hk] at h
    repeat' split at h
    all_goals try (
      first
        | exact absurd h (fun hcon => Except.noConfusion hcon)
        | (injection h with h2; subst h2; intro hget;
            first
              | exact Or.inr hget
              | (rw [getMetric_storeMetricScore] at hget;
                  rw [if_neg (by simp)] at hget; exact Or.inr hget)))
    injection h with h2
    subst h2
    intro hget
    rw [getMetric_storeMetricScore] at hget
    split at hget
    · injection hget with h3
      subst h3
      exact Or.inl ⟨rfl, rfl, e, rfl, hk, rfl, rfl⟩
    · rw [getMetric_storeMetricScore] at hget
      rw [if_neg (by simp)] at hget
      exact Or.inr hget
  all_goals simp only [storePageLoadMetricAgainstNavigationId, hk] at h
  all_goals repeat' split at h
  all_goals (
    first
      | exact absurd h (fun hcon => Except.noConfusion hcon)
      | (injection h with h2; subst h2; intro hget;
          first
            | exact Or.inr hget
            | (rw [getMetric_storeMetricScore] at hget;
                rw [if_neg (by simp)] at hget; exact Or.inr hget)))

theorem storePageLoadMetric_wf {meta : MetaData} {nav : TraceEventNavigationStart}
    {e : TraceEvent} {st st2 : HandlerState}
    (h : storePageLoadMetricAgainstNavigationId meta nav e st = Except.ok st2)
    (hwf : tableWF st.metricScoresByFrameId) : tableWF st2.metricScoresByFrameId := by
  simp only [storePageLoadMetricAgainstNavigationId] at h
  repeat' split at h
  all_goals first
    | exact absurd h (fun hcon => Except.noConfusion hcon)
    | (injection h with h2; subst h2;
        first
          | exact hwf
          | exact tableWF_storeMetricScore _ _ _ hwf
          | exact tableWF_storeMetricScore _ _ _ (tableWF_storeMetricScore _ _ _ hwf))

theorem processSortedEvents_tbt {meta : MetaData} :
    ∀ {evs : List TraceEvent} {st st1 : HandlerState},
      processSortedEvents meta evs st = Except.ok st1 →
      ∀ f n s, getMetric st1.metricScoresByFrameId f n MetricName.TBT = some s →
        authoritativeTBTShape s ∨
        getMetric st.metricScoresByFrameId f n MetricName.TBT = some s := by
  intro evs
  induction evs with
  | nil =>
    intro st st1 h f n s hget
    obtain rfl : st = st1 := by simpa [processSortedEvents] using h
    exact Or.inr hget
  | cons e rest ih =>
    intro st st1 h f n s hget
    simp only [processSortedEvents] at h
    cases hn : getNavigationForPageLoadEvent meta e with
    | error err => rw [hn] at h; simp at h
    | ok o =>
      rw [hn] at h
      cases o with
      | none =>
        simp only [] at h
        exact ih h f n s hget
      | some navigation =>
        simp only [] at h
        cases hs : storePageLoadMetricAgainstNavigationId meta navigation e st with
        | error err => rw [hs] at h; simp at h
        | ok stMid =>
          rw [hs] at h
          simp only [] at h
          rcases ih h f n s hget with hauth | hmid
          · exact Or.inl hauth
          · exact storePageLoadMetric_tbt hs f n s hmid

theorem processSortedEvents_wf {meta : MetaData} :
    ∀ {evs : List TraceEvent} {st st1 : HandlerState},
      processSortedEvents meta evs st = Except.ok st1 →
      tableWF st.metricScoresByFrameId → tableWF st1.metricScoresByFrameId := by
  intro evs
  induction evs with
  | nil =>
    intro st st1 h hwf
    obtain rfl : st = st1 := by simpa [processSortedEvents] using h
    exact hwf
  | cons e rest ih =>
    intro st st1 h hwf
    simp only [processSortedEvents] at h
    cases hn : getNavigationForPageLoadEvent meta e with
    | error err => rw [hn] at h; simp at h
    | ok o =>
      rw [hn] at h
      cases o with
      | none =>
        simp only [] at h
        exact ih h hwf
      | some navigation =>
        simp only [] at h
        cases hs : storePageLoadMetricAgainstNavigationId meta navigation e st with
        | error err => rw [hs] at h; simp at h
        | ok stMid =>
          rw [hs] at h
          simp only [] at h
          exact ih h (storePageLoadMetric_wf hs hwf)

/-! ### Estimation-phase lemmas -/

theorem estimateTBTForNav_cases {renderer : RendererData} {fId nId : String}
    {metrics : MetricsMap} {table table2 : MetricTable}
    (h : estimateTBTForNav renderer fId nId metrics table = Except.ok table2) :
    table2 = table ∨
    (mapGet MetricName.TBT metrics = none ∧
     ∃ s, estimatedTBTShape renderer metrics s ∧ s.metricName = MetricName.TBT ∧
       s.estimated = some true ∧ table2 = storeMetricScore table fId nId s) := by
  simp only [estimateTBTForNav] at h
  cases h1 : mapGet MetricName.TBT metrics with
  | some v =>
    rw [h1] at h
    simp only [] at h
    injection h with h2
    exact Or.inl h2.symm
  | none =>
    rw [h1] at h
    simp only [] at h
    cases h2 : mapGet MetricName.FCP metrics with
    | none =>
      rw [h2] at h
      simp only [] at h
      injection h with h2b
      exact Or.inl h2b.symm
    | some navigationFCP =>
      rw [h2] at h
      simp only [] at h
      cases h3 : navigationFCP.event with
      | none =>
        rw [h3] at h
        simp only [] at h
        injection h with h3b
        exact Or.inl h3b.symm
      | some fcpEvent =>
        rw [h3] at h
        simp only [] at h
        cases h4 : mapGet fcpEvent.pid renderer.processes with
        | none =>
          rw [h4] at h
          simp only [] at h
          injection h with h4b
          exact Or.inl h4b.symm
        | some rendererProcess =>
          rw [h4] at h
          simp only [] at h
          cases h5 : findCrRendererMain rendererProcess with
          | none =>
            rw [h5] at h
            exact absurd h (fun hcon => Except.noConfusion hcon)
          | some mainThread =>
            rw [h5] at h
            simp only [] at h
            cases h6 : mainThread.tree with
            | none =>
              rw [h6] at h
              exact absurd h (fun hcon => Except.noConfusion hcon)
            | some mainThreadTree =>
              rw [h6] at h
              simp only [] at h
              cases h7 : computeEstimatedTBT mainThreadTree mainThread.events fcpEvent.ts
                  mainThreadTree.roots 0 with
              | error err =>
                rw [h7] at h
                exact absurd h (fun hcon => Except.noConfusion hcon)
              | ok v =>
                rw [h7] at h
                simp only [] at h
                injection h with h8
                refine Or.inr ⟨rfl, _,
                  ⟨navigationFCP, fcpEvent, rendererProcess, mainThread, mainThreadTree, v,
                    h2, h3, h4, h5, h6, h7, rfl⟩, rfl, rfl, h8.symm⟩

theorem estimateTBTNavLoop_props {renderer : RendererData} {fId : String} :
    ∀ {entries : List (String × MetricsMap)} {table table2 : MetricTable},
      estimateTBTNavLoop renderer fId entries table = Except.ok table2 →
      (∀ f n m, m ≠ MetricName.TBT → getMetric table2 f n m = getMetric table f n m) ∧
      (∀ f n s, getMetric table2 f n MetricName.TBT = some s →
        getMetric table f n MetricName.TBT = some s ∨
        ∃ metrics, (n, metrics) ∈ entries ∧ f = fId ∧
          mapGet MetricName.TBT metrics = none ∧
          estimatedTBTShape renderer metrics s ∧ s.estimated = some true) ∧
      (∀ f n s, getMetric table f n MetricName.TBT = some s →
        getMetric table2 f n MetricName.TBT = some s ∨
        ∃ metrics, (n, metrics) ∈ entries ∧ f = fId ∧
          mapGet MetricName.TBT metrics = none) := by
  intro entries
  induction entries with
  | nil =>
    intro table table2 h
    obtain rfl : table = table2 := by simpa [estimateTBTNavLoop] using h
    exact ⟨fun f n m _ => rfl, fun f n s hs => Or.inl hs, fun f n s hs => Or.inl hs⟩
  | cons p rest ih =>
    obtain ⟨nId, metrics⟩ := p
    intro table table2 h
    simp only [estimateTBTNavLoop] at h
    cases hstep : estimateTBTForNav renderer fId nId metrics table with
    | error err =>
      rw [hstep] at h
      exact absurd h (fun hcon => Except.noConfusion hcon)
    | ok tmid =>
      rw [hstep] at h
      simp only [] at h
      obtain ⟨ih1, ih2, ih3⟩ := ih h
      rcases estimateTBTForNav_cases hstep with heq | ⟨hnone, s0, hshape, hname, hest0, hmid⟩
      · subst heq
        refine ⟨ih1, ?_, ?_⟩
        · intro f n s hs
          rcases ih2 f n s hs with h1 | ⟨m2, hm, hf, hn, hsh, he⟩
          · exact Or.inl h1
          · exact Or.inr ⟨m2, List.mem_cons_of_mem _ hm, hf, hn, hsh, he⟩
        · intro f n s hs
          rcases ih3 f n s hs with h1 | ⟨m2, hm, hf, hn⟩
          · exact Or.inl h1
          · exact Or.inr ⟨m2, List.mem_cons_of_mem _ hm, hf, hn⟩
      · subst hmid
        refine ⟨?_, ?_, ?_⟩
        · intro f n m hm
          rw [ih1 f n m hm, getMetric_storeMetricScore,
            if_neg (fun hc => hm (by rw [← hc.2.2, hname]))]
        · intro f n s hs
          rcases ih2 f n s hs with h1 | ⟨m2, hm, hf, hn, hsh, he⟩
          · rw [getMetric_storeMetricScore] at h1
            by_cases hc : fId = f ∧ nId = n ∧ s0.metricName = MetricName.TBT
            · rw [if_pos hc] at h1
              injection h1 with h1e
              subst h1e
              refine Or.inr ⟨metrics, ?_, hc.1.symm, hnone, hshape, hest0⟩
              rw [← hc.2.1]
              exact List.mem_cons_self _ _
            · rw [if_neg hc] at h1
              exact Or.inl h1
          · exact Or.inr ⟨m2, List.mem_cons_of_mem _ hm, hf, hn, hsh, he⟩
        · intro f n s hs
          by_cases hc : fId = f ∧ nId = n
          · refine Or.inr ⟨metrics, ?_, hc.1.symm, hnone⟩
            rw [← hc.2]
            exact List.mem_cons_self _ _
          · have hmid2 : getMetric (storeMetricScore table fId nId s0) f n MetricName.TBT =
                some s := by
              rw [getMetric_storeMetricScore, if_neg (fun hcc => hc ⟨hcc.1, hcc.2.1⟩)]
              exact hs
            rcases ih3 f n s hmid2 with h1 | ⟨m2, hm, hf, hn⟩
            · exact Or.inl h1
            · exact Or.inr ⟨m2, List.mem_cons_of_mem _ hm, hf, hn⟩

theorem estimateTBTFrameLoop_props {renderer : RendererData} :
    ∀ {entries : List (String × NavigationMap)} {table table2 : MetricTable},
      estimateTBTFrameLoop renderer entries table = Except.ok table2 →
      (∀ f n m, m ≠ MetricName.TBT → getMetric table2 f n m = getMetric table f n m) ∧
      (∀ f n s, getMetric table2 f n MetricName.TBT = some s →
        getMetric table f n MetricName.TBT = some s ∨
        ∃ navs metrics, (f, navs) ∈ entries ∧ (n, metrics) ∈ navs ∧
          mapGet MetricName.TBT metrics = none ∧
          estimatedTBTShape renderer metrics s ∧ s.estimated = some true) ∧
      (∀ f n s, getMetric table f n MetricName.TBT = some s →
        getMetric table2 f n MetricName.TBT = some s ∨
        ∃ navs metrics, (f, navs) ∈ entries ∧ (n, metrics) ∈ navs ∧
          mapGet MetricName.TBT metrics = none) := by
  intro entries
  induction entries with
  | nil =>
    intro table table2 h
    obtain rfl : table = table2 := by simpa [estimateTBTFrameLoop] using h
    exact ⟨fun f n m _ => rfl, fun f n s hs => Or.inl hs, fun f n s hs => Or.inl hs⟩
  | cons p rest ih =>
    obtain ⟨fId, navs⟩ := p
    intro table table2 h
    simp only [estimateTBTFrameLoop] at h
    cases hstep : estimateTBTNavLoop renderer fId navs table with
    | error err =>
      rw [hstep] at h
      exact absurd h (fun hcon => Except.noConfusion hcon)
    | ok tmid =>
      rw [hstep] at h
      simp only [] at h
      obtain ⟨ih1, ih2, ih3⟩ := ih h
      obtain ⟨hm1, hm2, hm3⟩ := estimateTBTNavLoop_props hstep
      refine ⟨?_, ?_, ?_⟩
      · intro f n m hm
        rw [ih1 f n m hm, hm1 f n m hm]
      · intro f n s hs
        rcases ih2 f n s hs with h1 | ⟨navs2, m2, hfm, hnm, hn, hsh, he⟩
        · rcases hm2 f n s h1 with h2 | ⟨m2, hm, hf, hn, hsh, he⟩
          · exact Or.inl h2
          · refine Or.inr ⟨navs, m2, ?_, hm, hn, hsh, he⟩
            rw [hf]
            exact List.mem_cons_self _ _
        · exact Or.inr ⟨navs2, m2, List.mem_cons_of_mem _ hfm, hnm, hn, hsh, he⟩
      · intro f n s hs
        rcases hm3 f n s hs with h1 | ⟨m2, hm, hf, hn⟩
        · rcases ih3 f n s h1 with h2 | ⟨navs2, m2, hfm, hnm, hn⟩
          · exact Or.inl h2
          · exact Or.inr ⟨navs2, m2, List.mem_cons_of_mem _ hfm, hnm, hn⟩
        · refine Or.inr ⟨navs, m2, ?_, hm, hn⟩
          rw [hf]
          exact List.mem_cons_self _ _

theorem estimateTotalBlockingTimes_props {renderer : RendererData}
    {table table2 : MetricTable} (hwf : tableWF table)
    (h : estimateTotalBlockingTimes renderer table = Except.ok table2) :
    (∀ f n m, m ≠ MetricName.TBT → getMetric table2 f n m = getMetric table f n m) ∧
    (∀ f n s, getMetric table f n MetricName.TBT = some s →
      getMetric table2 f n MetricName.TBT = some s) ∧
    (∀ f n s, getMetric table2 f n MetricName.TBT = some s →
      getMetric table f n MetricName.TBT = some s ∨
      (getMetric table f n MetricName.TBT = none ∧
       estimatedTBTShape renderer (metricsAt table f n) s ∧ s.estimated = some true)) := by
  simp only [estimateTotalBlockingTimes] at h
  obtain ⟨hp1, hp2, hp3⟩ := estimateTBTFrameLoop_props h
  have hentry : ∀ {f n : String} {navs : NavigationMap} {metrics : MetricsMap},
      (f, navs) ∈ table → (n, metrics) ∈ navs → metricsAt table f n = metrics := by
    intro f n navs metrics hfm hnm
    have h1 : mapGet f table = some navs := mem_mapGet_of_nodup hwf.1 hfm
    have h2 : mapGet n navs = some metrics := mem_mapGet_of_nodup (hwf.2 _ hfm) hnm
    simp [metricsAt, h1, h2]
  refine ⟨hp1, ?_, ?_⟩
  · intro f n s hs
    rcases hp3 f n s hs with h1 | ⟨navs, metrics, hfm, hnm, hnone⟩
    · exact h1
    · have hmm := hentry hfm hnm
      rw [getMetric, hmm, hnone] at hs
      exact absurd hs (fun hcon => Option.noConfusion hcon)
  · intro f n s hs
    rcases hp2 f n s hs with h1 | ⟨navs, metrics, hfm, hnm, hnone, hshape, hest0⟩
    · exact Or.inl h1
    · right
      have hmm := hentry hfm hnm
      refine ⟨?_, ?_, hest0⟩
      · rw [getMetric, hmm]
        exact hnone
      · rw [hmm]
        exact hshape

/-! ### Heap (reference-semantics) lemmas for the data snapshot -/

theorem viewSnapshot_resetHeap (snapshot : List (String × Nat)) (h : JSHeap) :
    viewSnapshot snapshot (resetHeap h) = viewSnapshot snapshot h := rfl

theorem viewSnapshot_store_absent {h : JSHeap} {fId nId : String} {ms : MetricScore}
    (hwf : heapWF h) (habs : mapGet fId h.outer = none) :
    viewSnapshot (dataHeap h) (storeMetricScoreHeap h fId nId ms) =
      viewSnapshot (dataHeap h) h := by
  obtain ⟨hb1, hb2, hb3, hb4, hnd, hdet, hmnd, hidet⟩ := hwf
  simp only [storeMetricScoreHeap, habs, dataHeap, viewSnapshot, mapGet_mapSet, mapGet,
    eq_self_iff_true, if_true, Option.getD_some, Option.getD_none, mapDelete,
    List.filter_nil, mapSet]
  apply List.map_congr_left
  intro p hp
  have hr : p.2 < h.fresh := hb1 p hp
  rw [if_neg (by omega : ¬ h.fresh = p.2), if_neg (by omega : ¬ h.fresh = p.2)]
  congr 1
  apply List.map_congr_left
  intro q hq
  have hq2 : q.2 < h.fresh := by
    cases hmg : mapGet p.2 h.mids with
    | none =>
      rw [hmg] at hq
      simp at hq
    | some mid =>
      rw [hmg] at hq
      exact hb3 _ (mapGet_some_mem hmg) q hq
  rw [if_neg (by omega : ¬ h.fresh + 1 = q.2), if_neg (by omega : ¬ h.fresh + 1 = q.2)]

theorem viewSnapshot_store_present {h : JSHeap} {fId nId : String} {ms : MetricScore} {r : Nat}
    (hwf : heapWF h) (hr : mapGet fId h.outer = some r) :
    viewSnapshot (dataHeap h) (storeMetricScoreHeap h fId nId ms) =
      storeMetricScore (viewSnapshot (dataHeap h) h) fId nId ms := by
  obtain ⟨hb1, hb2, hb3, hb4, hnd, hdet, hmnd, hidet⟩ := hwf
  have hfrOut : (fId, r) ∈ h.outer := mapGet_some_mem hr
  cases hmm : mapGet r h.mids with
  | none =>
    simp only [storeMetricScoreHeap, hr, hmm, Option.getD_some, Option.getD_none, mapGet,
      storeMetricScore, viewSnapshot, dataHeap, mapDelete, List.filter_nil, mapSet,
      eq_self_iff_true, if_true]
    rw [mapGet_map, hr]
    simp only [Option.map_some', Option.getD_some, hmm, Option.getD_none, List.map_nil,
      mapGet, mapSet, eq_self_iff_true, if_true, List.filter_nil]
    rw [mapSet_map_of_mem hnd (List.mem_map_of_mem Prod.fst hfrOut)]
    apply List.map_congr_left
    intro p hp
    by_cases hpf : p.1 = fId
    · have hpr : p.2 = r := by
        have hh := mem_mapGet_of_nodup hnd (show (p.1, p.2) ∈ h.outer by simpa using hp)
        rw [hpf, hr] at hh
        exact (Option.some.inj hh).symm
      rw [if_pos hpf]
      rw [mapGet_mapSet h.mids r p.2, if_pos hpr.symm]
      simp only [Option.getD_some, List.map_cons, List.map_nil]
      rw [mapGet_mapSet h.inners h.fresh h.fresh, if_pos rfl]
      simp only [Option.getD_some, List.filter_nil, mapSet]
      rw [mapGet_mapSet (mapSet h.inners h.fresh []) h.fresh h.fresh, if_pos rfl]
      simp only [Option.getD_some]
      exact Prod.ext hpf rfl
    · rw [if_neg hpf]
      have hpr : ¬ r = p.2 := by
        intro he
        exact hpf (hdet p hp (fId, r) hfrOut (by simpa using he.symm))
      rw [mapGet_mapSet h.mids r p.2, if_neg hpr]
      congr 1
      cases hmm2 : mapGet p.2 h.mids with
      | none => simp
      | some mid0 =>
        simp only [Option.getD_some]
        apply List.map_congr_left
        intro q hq
        have hq2 : q.2 < h.fresh := hb3 _ (mapGet_some_mem hmm2) q hq
        rw [mapGet_mapSet (mapSet h.inners h.fresh []) h.fresh q.2,
          if_neg (by omega : ¬ h.fresh = q.2),
          mapGet_mapSet h.inners h.fresh q.2, if_neg (by omega : ¬ h.fresh = q.2)]
  | some mid =>
    have hmidMem : (r, mid) ∈ h.mids := mapGet_some_mem hmm
    cases hmg : mapGet nId mid with
    | none =>
      have hnk : nId ∉ mid.map Prod.fst := mapGet_eq_none_iff.mp hmg
      simp only [storeMetricScoreHeap, hr, hmm, hmg, Option.getD_some, Option.getD_none,
        mapGet, storeMetricScore, viewSnapshot, dataHeap, mapDelete, List.filter_nil,
        mapSet, eq_self_iff_true, if_true]
      rw [mapGet_map, hr]
      simp only [Option.map_some', Option.getD_some, hmm]
      rw [mapGet_map, hmg]
      simp only [Option.map_none', Option.getD_none, mapDelete, List.filter_nil, mapSet]
      rw [mapSet_map_of_mem hnd (List.mem_map_of_mem Prod.fst hfrOut)]
      apply List.map_congr_left
      intro p hp
      by_cases hpf : p.1 = fId
      · have hpr : p.2 = r := by
          have hh := mem_mapGet_of_nodup hnd (show (p.1, p.2) ∈ h.outer by simpa using hp)
          rw [hpf, hr] at hh
          exact (Option.some.inj hh).symm
        have hketa : (mid.map (fun q => (q.1,
            (mapGet q.2 h.inners).getD ([] : MetricsMap)))).map Prod.fst = mid.map Prod.fst := by
          rw [List.map_map]
          rfl
        have hnk2 : nId ∉ (mid.map (fun q => (q.1,
            (mapGet q.2 h.inners).getD ([] : MetricsMap)))).map Prod.fst := by
          rw [hketa]
          exact hnk
        have hmid : mid.map (fun q => (q.1,
            (mapGet q.2 (mapSet (mapSet h.inners h.fresh []) h.fresh
              [(ms.metricName, ms)])).getD [])) =
            mid.map (fun q => (q.1, (mapGet q.2 h.inners).getD [])) := by
          apply List.map_congr_left
          intro q hq
          have hq2 : q.2 < h.fresh := hb3 _ hmidMem q hq
          rw [mapGet_mapSet (mapSet h.inners h.fresh []) h.fresh q.2,
            if_neg (by omega : ¬ h.fresh = q.2),
            mapGet_mapSet h.inners h.fresh q.2, if_neg (by omega : ¬ h.fresh = q.2)]
        rw [if_pos hpf]
        rw [mapGet_mapSet h.mids r p.2, if_pos hpr.symm]
        simp only [Option.getD_some]
        rw [mapGet_mapSet h.inners h.fresh h.fresh, if_pos rfl]
        simp only [Option.getD_some, List.filter_nil, mapSet]
        rw [mapSet_append_of_not_mem hnk, List.map_append]
        rw [mapSet_append_of_not_mem hnk2]
        simp only [List.map_cons, List.map_nil]
        rw [mapGet_mapSet (mapSet h.inners h.fresh []) h.fresh h.fresh, if_pos rfl]
        simp only [Option.getD_some]
        rw [hmid]
        exact Prod.ext hpf rfl
      · rw [if_neg hpf]
        have hpr : ¬ r = p.2 := by
          intro he
          exact hpf (hdet p hp (fId, r) hfrOut (by simpa using he.symm))
        rw [mapGet_mapSet h.mids r p.2, if_neg hpr]
        congr 1
        cases hmm2 : mapGet p.2 h.mids with
        | none => simp
        | some mid0 =>
          simp only [Option.getD_some]
          apply List.map_congr_left
          intro q hq
          have hq2 : q.2 < h.fresh := hb3 _ (mapGet_some_mem hmm2) q hq
          rw [mapGet_mapSet (mapSet h.inners h.fresh []) h.fresh q.2,
            if_neg (by omega : ¬ h.fresh = q.2),
            mapGet_mapSet h.inners h.fresh q.2, if_neg (by omega : ¬ h.fresh = q.2)]
    | some ir =>
      have hnavMem : (nId, ir) ∈ mid := mapGet_some_mem hmg
      simp only [storeMetricScoreHeap, hr, hmm, hmg, Option.getD_some, Option.getD_none,
        mapGet, storeMetricScore, viewSnapshot, dataHeap, mapDelete, mapSet,
        eq_self_iff_true, if_true]
      rw [mapGet_map, hr]
      simp only [Option.map_some', Option.getD_some, hmm]
      rw [mapGet_map, hmg]
      simp only [Option.map_some', Option.getD_some, mapDelete]
      rw [mapSet_map_of_mem hnd (List.mem_map_of_mem Prod.fst hfrOut)]
      apply List.map_congr_left
      intro p hp
      by_cases hpf : p.1 = fId
      · have hpr : p.2 = r := by
          have hh := mem_mapGet_of_nodup hnd (show (p.1, p.2) ∈ h.outer by simpa using hp)
          rw [hpf, hr] at hh
          exact (Option.some.inj hh).symm
        rw [if_pos hpf]
        rw [hpr, hmm]
        simp only [Option.getD_some]
        rw [mapSet_map_of_mem (hmnd _ hmidMem) (List.mem_map_of_mem Prod.fst hnavMem)]
        refine Prod.ext hpf ?_
        simp only []
        apply List.map_congr_left
        intro q hq
        by_cases hq1 : q.1 = nId
        · have hq2 : q.2 = ir := by
            have hh := mem_mapGet_of_nodup (hmnd _ hmidMem)
              (show (q.1, q.2) ∈ mid by simpa using hq)
            rw [hq1, hmg] at hh
            exact (Option.some.inj hh).symm
          rw [if_pos hq1]
          rw [mapGet_mapSet h.inners ir q.2, if_pos hq2.symm]
          simp only [Option.getD_some]
          exact Prod.ext hq1 rfl
        · rw [if_neg hq1]
          have hq2 : ¬ ir = q.2 := by
            intro he
            exact hq1 (hidet _ hmidMem _ hmidMem q hq (nId, ir) hnavMem (by simpa using he.symm)).2
          rw [mapGet_mapSet h.inners ir q.2, if_neg hq2]
      · rw [if_neg hpf]
        have hpr : ¬ r = p.2 := by
          intro he
          exact hpf (hdet p hp (fId, r) hfrOut (by simpa using he.symm))
        congr 1
        cases hmm2 : mapGet p.2 h.mids with
        | none => simp
        | some mid0 =>
          simp only [Option.getD_some]
          apply List.map_congr_left
          intro q hq
          have hq2 : ¬ ir = q.2 := by
            intro he
            have hd := hidet _ (mapGet_some_mem hmm2) _ hmidMem q hq (nId, ir) hnavMem
              (by simpa using he.symm)
            exact hpr hd.1.symm
          rw [mapGet_mapSet h.inners ir q.2, if_neg hq2]

theorem heapWF_resetHeap {h : JSHeap} (hwf : heapWF h) : heapWF (resetHeap h) := by
  obtain ⟨hb1, hb2, hb3, hb4, hnd, hdet, hmnd, hidet⟩ := hwf
  refine ⟨?_, hb2, hb3, hb4, ?_, ?_, hmnd, hidet⟩
  · intro p hp
    simp [resetHeap] at hp
  · simp [resetHeap]
  · intro p hp
    simp [resetHeap] at hp

theorem heapWF_store_absent {h : JSHeap} {fId : String} (nId : String) (ms : MetricScore)
    (hwf : heapWF h) (hfr : mapGet fId h.outer = none) :
    heapWF (storeMetricScoreHeap h fId nId ms) := by
  obtain ⟨hb1, hb2, hb3, hb4, hnd, hdet, hmnd, hidet⟩ := hwf
  simp only [storeMetricScoreHeap, heapWF, hfr, mapGet_mapSet, mapGet, mapSet, mapDelete,
    eq_self_iff_true, if_true, Option.getD_some, Option.getD_none, List.filter_nil]
  refine ⟨?_, ?_, ?_, ?_, ?_, ?_, ?_, ?_⟩
  · intro p hp
    rcases mem_mapSet hp with rfl | hp2
    · show h.fresh < h.fresh + 1 + 1
      omega
    · have := hb1 p hp2
      omega
  · intro p hp
    rcases mem_mapSet hp with rfl | hp2
    · show h.fresh < h.fresh + 1 + 1
      omega
    · rcases mem_mapSet hp2 with rfl | hp3
      · show h.fresh < h.fresh + 1 + 1
        omega
      · have := hb2 p hp3
        omega
  · intro p hp q hq
    rcases mem_mapSet hp with rfl | hp2
    · simp only [List.mem_singleton] at hq
      subst hq
      show h.fresh + 1 < h.fresh + 1 + 1
      omega
    · rcases mem_mapSet hp2 with rfl | hp3
      · simp at hq
      · have := hb3 p hp3 q hq
        omega
  · intro p hp
    rcases mem_mapSet hp with rfl | hp2
    · show h.fresh + 1 < h.fresh + 1 + 1
      omega
    · rcases mem_mapSet hp2 with rfl | hp3
      · show h.fresh + 1 < h.fresh + 1 + 1
        omega
      · have := hb4 p hp3
        omega
  · exact keys_mapSet_nodup _ _ hnd
  · intro p hp q hq heq
    rcases mem_mapSet hp with rfl | hp2 <;> rcases mem_mapSet hq with rfl | hq2
    · rfl
    · have := hb1 q hq2
      have h2 : (fId, h.fresh).2 = h.fresh := rfl
      rw [h2] at heq
      omega
    · have := hb1 p hp2
      have h2 : (fId, h.fresh).2 = h.fresh := rfl
      rw [h2] at heq
      omega
    · exact hdet p hp2 q hq2 heq
  · intro p hp
    rcases mem_mapSet hp with rfl | hp2
    · simp
    · rcases mem_mapSet hp2 with rfl | hp3
      · simp
      · exact hmnd p hp3
  · intro p hp q hq a ha b hb heq
    rcases mem_mapSet hp with rfl | hp2
    · simp only [List.mem_singleton] at ha
      subst ha
      rcases mem_mapSet hq with rfl | hq2
      · simp only [List.mem_singleton] at hb
        subst hb
        exact ⟨rfl, rfl⟩
      · rcases mem_mapSet hq2 with rfl | hq3
        · simp at hb
        · have := hb3 q hq3 b hb
          have h2 : (nId, h.fresh + 1).2 = h.fresh + 1 := rfl
          rw [h2] at heq
          omega
    · rcases mem_mapSet hp2 with rfl | hp3
      · simp at ha
      · rcases mem_mapSet hq with rfl | hq2
        · simp only [List.mem_singleton] at hb
          subst hb
          have := hb3 p hp3 a ha
          have h2 : (nId, h.fresh + 1).2 = h.fresh + 1 := rfl
          rw [h2] at heq
          omega
        · rcases mem_mapSet hq2 with rfl | hq3
          · simp at hb
          · exact hidet p hp3 q hq3 a ha b hb heq

theorem heapWF_store_present {h : JSHeap} {fId : String} {r : Nat} (nId : String)
    (ms : MetricScore) (hwf : heapWF h) (hfr : mapGet fId h.outer = some r) :
    heapWF (storeMetricScoreHeap h fId nId ms) := by
  obtain ⟨hb1, hb2, hb3, hb4, hnd, hdet, hmnd, hidet⟩ := hwf
  cases hmm : mapGet r h.mids with
  | none =>
    simp only [storeMetricScoreHeap, heapWF, hfr, hmm, mapGet_mapSet, mapGet, mapSet,
      mapDelete, eq_self_iff_true, if_true, Option.getD_some, Option.getD_none,
      List.filter_nil]
    refine ⟨?_, ?_, ?_, ?_, hnd, hdet, ?_, ?_⟩
    · intro p hp
      have := hb1 p hp
      omega
    · intro p hp
      rcases mem_mapSet hp with rfl | hp2
      · have := hb1 (fId, r) (mapGet_some_mem hfr)
        show r < h.fresh + 1
        omega
      · have := hb2 p hp2
        omega
    · intro p hp q hq
      rcases mem_mapSet hp with rfl | hp2
      · simp only [List.mem_singleton] at hq
        subst hq
        show h.fresh < h.fresh + 1
        omega
      · have := hb3 p hp2 q hq
        omega
    · intro p hp
      rcases mem_mapSet hp with rfl | hp2
      · show h.fresh < h.fresh + 1
        omega
      · rcases mem_mapSet hp2 with rfl | hp3
        · show h.fresh < h.fresh + 1
          omega
        · have := hb4 p hp3
          omega
    · intro p hp
      rcases mem_mapSet hp with rfl | hp2
      · simp
      · exact hmnd p hp2
    · intro p hp q hq a ha b hb heq
      rcases mem_mapSet hp with rfl | hp2
      · simp only [List.mem_singleton] at ha
        subst ha
        rcases mem_mapSet hq with rfl | hq2
        · simp only [List.mem_singleton] at hb
          subst hb
          exact ⟨rfl, rfl⟩
        · have := hb3 q hq2 b hb
          have h2 : (nId, h.fresh).2 = h.fresh := rfl
          rw [h2] at heq
          omega
      · rcases mem_mapSet hq with rfl | hq2
        · simp only [List.mem_singleton] at hb
          subst hb
          have := hb3 p hp2 a ha
          have h2 : (nId, h.fresh).2 = h.fresh := rfl
          rw [h2] at heq
          omega
        · exact hidet p hp2 q hq2 a ha b hb heq
  | some mid =>
    have hmidMem : (r, mid) ∈ h.mids := mapGet_some_mem hmm
    cases hmg : mapGet nId mid with
    | none =>
      simp only [storeMetricScoreHeap, heapWF, hfr, hmm, hmg, mapGet_mapSet, mapGet, mapSet,
        mapDelete, eq_self_iff_true, if_true, Option.getD_some, Option.getD_none,
        List.filter_nil]
      refine ⟨?_, ?_, ?_, ?_, hnd, hdet, ?_, ?_⟩
      · intro p hp
        have := hb1 p hp
        omega
      · intro p hp
        rcases mem_mapSet hp with rfl | hp2
        · have := hb2 (r, mid) hmidMem
          show r < h.fresh + 1
          omega
        · have := hb2 p hp2
          omega
      · intro p hp q hq
        rcases mem_mapSet hp with rfl | hp2
        · rcases mem_mapSet hq with rfl | hq2
          · show h.fresh < h.fresh + 1
            omega
          · have := hb3 (r, mid) hmidMem q hq2
            omega
        · have := hb3 p hp2 q hq
          omega
      · intro p hp
        rcases mem_mapSet hp with rfl | hp2
        · show h.fresh < h.fresh + 1
          omega
        · rcases mem_mapSet hp2 with rfl | hp3
          · show h.fresh < h.fresh + 1
            omega
          · have := hb4 p hp3
            omega
      · intro p hp
        rcases mem_mapSet hp with rfl | hp2
        · exact keys_mapSet_nodup _ _ (hmnd (r, mid) hmidMem)
        · exact hmnd p hp2
      · intro p hp q hq a ha b hb heq
        rcases mem_mapSet hp with rfl | hp2
        · rcases mem_mapSet hq with rfl | hq2
          · rcases mem_mapSet ha with rfl | ha2
            · rcases mem_mapSet hb with rfl | hb2
              · exact ⟨rfl, rfl⟩
              · have := hb3 (r, mid) hmidMem b hb2
                have h2 : (nId, h.fresh).2 = h.fresh := rfl
                rw [h2] at heq
                omega
            · rcases mem_mapSet hb with rfl | hb2
              · have := hb3 (r, mid) hmidMem a ha2
                have h2 : (nId, h.fresh).2 = h.fresh := rfl
                rw [h2] at heq
                omega
              · exact ⟨rfl, (hidet (r, mid) hmidMem (r, mid) hmidMem a ha2 b hb2 heq).2⟩
          · rcases mem_mapSet ha with rfl | ha2
            · have := hb3 q hq2 b hb
              have h2 : (nId, h.fresh).2 = h.fresh := rfl
              rw [h2] at heq
              omega
            · exact hidet (r, mid) hmidMem q hq2 a ha2 b hb heq
        · rcases mem_mapSet hq with rfl | hq2
          · rcases mem_mapSet hb with rfl | hb2
            · have := hb3 p hp2 a ha
              have h2 : (nId, h.fresh).2 = h.fresh := rfl
              rw [h2] at heq
              omega
            · exact hidet p hp2 (r, mid) hmidMem a ha b hb2 heq
          · exact hidet p hp2 q hq2 a ha b hb heq
    | some ir =>
      simp only [storeMetricScoreHeap, heapWF, hfr, hmm, hmg, mapGet_mapSet, mapGet, mapSet,
        mapDelete, eq_self_iff_true, if_true, Option.getD_some, Option.getD_none,
        List.filter_nil]
      refine ⟨hb1, hb2, hb3, ?_, hnd, hdet, hmnd, hidet⟩
      intro p hp
      rcases mem_mapSet hp with rfl | hp2
      · have := hb3 (r, mid) hmidMem (nId, ir) (mapGet_some_mem hmg)
        show ir < h.fresh
        simpa using this
      · exact hb4 p hp2

/-! ### Claim C3 -/

/-- C3: each scoring function is a pure classifier of its microsecond input
against fixed inclusive thresholds: GOOD iff `d ≤ good`, OK iff
`good < d ≤ medium`, BAD iff `medium < d`, with (good, medium) thresholds
FCP (1.8 s, 3.0 s), TTI (3.8 s, 7.3 s), LCP (2.5 s, 4.0 s),
TBT (200 ms, 600 ms); the DOM-Content-Loaded scorer returns UNCLASSIFIED on
every input; and the FCP boundary examples hold: 1.8 s is GOOD, 1.800001 s
is OK, 3.0 s is OK, 3.000001 s is BAD. -/
theorem scorers_classify_by_fixed_thresholds :
    (∀ d : Int,
      (scoreClassificationForFirstContentfulPaint d = ScoreClassification.GOOD ↔ d ≤ 1800000) ∧
      (scoreClassificationForFirstContentfulPaint d = ScoreClassification.OK ↔
        1800000 < d ∧ d ≤ 3000000) ∧
      (scoreClassificationForFirstContentfulPaint d = ScoreClassification.BAD ↔ 3000000 < d)) ∧
    (∀ d : Int,
      (scoreClassificationForTimeToInteractive d = ScoreClassification.GOOD ↔ d ≤ 3800000) ∧
      (scoreClassificationForTimeToInteractive d = ScoreClassification.OK ↔
        3800000 < d ∧ d ≤ 7300000) ∧
      (scoreClassificationForTimeToInteractive d = ScoreClassification.BAD ↔ 7300000 < d)) ∧
    (∀ d : Int,
      (scoreClassificationForLargestContentfulPaint d = ScoreClassification.GOOD ↔ d ≤ 2500000) ∧
      (scoreClassificationForLargestContentfulPaint d = ScoreClassification.OK ↔
        2500000 < d ∧ d ≤ 4000000) ∧
      (scoreClassificationForLargestContentfulPaint d = ScoreClassification.BAD ↔ 4000000 < d)) ∧
    (∀ d : Int,
      (scoreClassificationForTotalBlockingTime d = ScoreClassification.GOOD ↔ d ≤ 200000) ∧
      (scoreClassificationForTotalBlockingTime d = ScoreClassification.OK ↔
        200000 < d ∧ d ≤ 600000) ∧
      (scoreClassificationForTotalBlockingTime d = ScoreClassification.BAD ↔ 600000 < d)) ∧
    (∀ d : Int, scoreClassificationForDOMContentLoaded d = ScoreClassification.UNCLASSIFIED) ∧
    scoreClassificationForFirstContentfulPaint 1800000 = ScoreClassification.GOOD ∧
    scoreClassificationForFirstContentfulPaint 1800001 = ScoreClassification.OK ∧
    scoreClassificationForFirstContentfulPaint 3000000 = ScoreClassification.OK ∧
    scoreClassificationForFirstContentfulPaint 3000001 = ScoreClassification.BAD := by
  refine ⟨?_, ?_, ?_, ?_, fun d => rfl, by decide, by decide, by decide, by decide⟩
  · intro d
    simp only [scoreClassificationForFirstContentfulPaint]
    by_cases h1 : d ≤ (1800000 : Int) <;> by_cases h2 : d ≤ (3000000 : Int) <;>
      simp [h1, h2] <;> omega
  · intro d
    simp only [scoreClassificationForTimeToInteractive]
    by_cases h1 : d ≤ (3800000 : Int) <;> by_cases h2 : d ≤ (7300000 : Int) <;>
      simp [h1, h2] <;> omega
  · intro d
    simp only [scoreClassificationForLargestContentfulPaint]
    by_cases h1 : d ≤ (2500000 : Int) <;> by_cases h2 : d ≤ (4000000 : Int) <;>
      simp [h1, h2] <;> omega
  · intro d
    simp only [scoreClassificationForTotalBlockingTime, millisecondsToMicroseconds]
    by_cases h1 : d ≤ (200000 : Int) <;> by_cases h2 : d ≤ (600000 : Int) <;>
      simp [h1, h2] <;> omega

/-! ### Claim C7 -/

/-- C7: `handleEvent` appends the event, unmodified, to the end of the
buffer exactly when the page-load predicate holds (the five marker kinds
plus InteractiveTime); every other event, LayoutShift included, leaves the
whole state unchanged; consequently the buffer after a sequence of calls is
the original buffer followed by exactly the page-load events in arrival
order, with the other three state components untouched. -/
theorem handleEvent_buffers_exactly_page_load_events :
    (∀ e : TraceEvent, eventIsPageLoadEvent e = true ↔
      (e.name = EventKind.MarkDOMContent ∨ e.name = EventKind.MarkLoad ∨
       e.name = EventKind.FirstPaint ∨ e.name = EventKind.FirstContentfulPaint ∨
       e.name = EventKind.LargestContentfulPaintCandidate ∨
       e.name = EventKind.InteractiveTime)) ∧
    (∀ st e, eventIsPageLoadEvent e = true →
      handleEvent st e = { st with pageLoadEventsArray := st.pageLoadEventsArray ++ [e] }) ∧
    (∀ st e, eventIsPageLoadEvent e = false → handleEvent st e = st) ∧
    (∀ st e, e.name = EventKind.LayoutShift → handleEvent st e = st) ∧
    (∀ st events,
      (handleEvents st events).pageLoadEventsArray =
        st.pageLoadEventsArray ++ events.filter eventIsPageLoadEvent ∧
      (handleEvents st events).metricScoresByFrameId = st.metricScoresByFrameId ∧
      (handleEvents st events).allMarkerEvents = st.allMarkerEvents ∧
      (handleEvents st events).selectedLCPCandidateEvents = st.selectedLCPCandidateEvents) := by
  have hiff : ∀ e : TraceEvent, eventIsPageLoadEvent e = true ↔
      (e.name = EventKind.MarkDOMContent ∨ e.name = EventKind.MarkLoad ∨
       e.name = EventKind.FirstPaint ∨ e.name = EventKind.FirstContentfulPaint ∨
       e.name = EventKind.LargestContentfulPaintCandidate ∨
       e.name = EventKind.InteractiveTime) := by
    intro e
    cases h : e.name <;>
      simp [eventIsPageLoadEvent, pageLoadEventTypeGuards, markerTypeGuards,
        isTraceEventMarkDOMContent, isTraceEventMarkLoad, isTraceEventFirstPaint,
        isTraceEventFirstContentfulPaint, isTraceEventLargestContentfulPaintCandidate,
        isTraceEventInteractiveTime, h]
  refine ⟨hiff, ?_, ?_, ?_, ?_⟩
  · intro st e h
    simp [handleEvent, h]
  · intro st e h
    simp [handleEvent, h]
  · intro st e h
    have : eventIsPageLoadEvent e = false := by
      simp [eventIsPageLoadEvent, pageLoadEventTypeGuards, markerTypeGuards,
        isTraceEventMarkDOMContent, isTraceEventMarkLoad, isTraceEventFirstPaint,
        isTraceEventFirstContentfulPaint, isTraceEventLargestContentfulPaintCandidate,
        isTraceEventInteractiveTime, h]
    simp [handleEvent, this]
  · intro st events
    induction events generalizing st with
    | nil => simp [handleEvents]
    | cons e rest ih =>
      have hstep : handleEvents st (e :: rest) = handleEvents (handleEvent st e) rest := by
        simp [handleEvents]
      rw [hstep]
      obtain ⟨ih1, ih2, ih3, ih4⟩ := ih (handleEvent st e)
      by_cases h : eventIsPageLoadEvent e
      · refine ⟨?_, ?_, ?_, ?_⟩
        · rw [ih1]
          simp [handleEvent, h, List.filter_cons]
        · rw [ih2]
          simp [handleEvent, h]
        · rw [ih3]
          simp [handleEvent, h]
        · rw [ih4]
          simp [handleEvent, h]
      · rw [Bool.not_eq_true] at h
        refine ⟨?_, ?_, ?_, ?_⟩
        · rw [ih1]
          simp [handleEvent, h, List.filter_cons]
        · rw [ih2]
          simp [handleEvent, h]
        · rw [ih3]
          simp [handleEvent, h]
        · rw [ih4]
          simp [handleEvent, h]

/-- C7 witness: at concrete inputs, a LayoutShift event is a no-op and an
FCP event is appended to the buffer. -/
theorem handleEvent_buffers_exactly_page_load_events_witness :
    handleEvent emptyHandlerState layoutShiftEvent = emptyHandlerState ∧
    handleEvent emptyHandlerState fcpEventOne =
      { emptyHandlerState with pageLoadEventsArray := [fcpEventOne] } := by
  constructor
  · exact handleEvent_buffers_exactly_page_load_events.2.2.2.1 emptyHandlerState
      layoutShiftEvent (by decide)
  · have h := handleEvent_buffers_exactly_page_load_events.2.1 emptyHandlerState
      fcpEventOne (by decide)
    simpa [emptyHandlerState] using h

/-! ### Claim C8 -/

/-- C8: `reset` clears all four pieces of accumulation state, and a reset
handler with no events fed finalizes successfully into the empty state, so
`data()` yields an empty metric table and an empty marker sequence. -/
theorem reset_clears_state_and_yields_empty_data :
    (∀ st, reset st = emptyHandlerState) ∧
    (∀ st meta renderer,
      finalize meta renderer (reset st) = Except.ok emptyHandlerState) ∧
    data emptyHandlerState =
      { metricScoresByFrameId := [], allMarkerEvents := [] } := by
  refine ⟨fun st => rfl, fun st meta renderer => ?_, rfl⟩
  simp [finalize, reset, emptyHandlerState, processSortedEvents,
    estimateTotalBlockingTimes, estimateTBTFrameLoop, gatherFinalLCPEvents,
    filterByMainFrame, List.insertionSort]

/-! ### Claim C5 -/

/-- C5: a required identifier that is absent where the instrumentation
guarantees its presence aborts finalize by throwing: an FCP, FirstPaint or
LCP-candidate event with no `navigationId` throws in navigation resolution;
a MarkDOMContent or MarkLoad event with no frame id throws in frame
resolution; an LCP candidate with no `candidateIndex` throws in the store
step (reached whenever its process window admits the event); and concrete
finalize runs over such events abort with the corresponding error. -/
theorem missing_required_identifiers_throw :
    (∀ (meta : MetaData) (e : TraceEvent),
      (e.name = EventKind.FirstContentfulPaint ∨ e.name = EventKind.FirstPaint ∨
       e.name = EventKind.LargestContentfulPaintCandidate) →
      e.navigationId = none →
      getNavigationForPageLoadEvent meta e =
        Except.error "Trace event unexpectedly had no navigation ID.") ∧
    (∀ (e : TraceEvent),
      (e.name = EventKind.MarkDOMContent ∨ e.name = EventKind.MarkLoad) →
      e.dataFrame = none →
      getFrameIdForPageLoadEvent e =
        Except.error "MarkDOMContent unexpectedly had no frame ID.") ∧
    (∀ (meta : MetaData) (nav : TraceEventNavigationStart) (e : TraceEvent)
        (st : HandlerState) (nid : String) (procs : List (Nat × ProcessData))
        (pd : ProcessData),
      e.name = EventKind.LargestContentfulPaintCandidate →
      e.candidateIndex = none →
      nav.navigationId = some nid → nid ≠ "" →
      mapGet e.argsFrame meta.rendererProcessesByFrame = some procs →
      mapGet e.pid procs = some pd →
      pd.window.min ≤ e.ts → e.ts ≤ pd.window.max →
      storePageLoadMetricAgainstNavigationId meta nav e st =
        Except.error "Largest Contenful Paint unexpectedly had no candidateIndex.") ∧
    finalize metaOne rendererNone (handleEvents emptyHandlerState [fcpNoNav]) =
      Except.error "Trace event unexpectedly had no navigation ID." ∧
    finalize metaOne rendererNone (handleEvents emptyHandlerState [lcpNoIndex]) =
      Except.error "Largest Contenful Paint unexpectedly had no candidateIndex." ∧
    finalize metaOne rendererNone (handleEvents emptyHandlerState [dclNoFrame]) =
      Except.error "MarkDOMContent unexpectedly had no frame ID." := by
  refine ⟨?_, ?_, ?_, by decide, by decide, by decide⟩
  · intro meta e hk hnav
    rcases hk with h | h | h <;> simp [getNavigationForPageLoadEvent, h, hnav]
  · intro e hk hframe
    rcases hk with h | h <;> simp [getFrameIdForPageLoadEvent, h, hframe]
  · intro meta nav e st nid procs pd hk hidx hnav hne hprocs hpd hmin hmax
    simp [storePageLoadMetricAgainstNavigationId, hk, hidx, hnav, hne,
      getFrameIdForPageLoadEvent, hprocs, hpd, hmin, hmax]

/-- C5 witness: the store-level LCP conclusion at a concrete input. -/
theorem missing_required_identifiers_throw_witness :
    storePageLoadMetricAgainstNavigationId metaOne navOne lcpNoIndex emptyHandlerState =
      Except.error "Largest Contenful Paint unexpectedly had no candidateIndex." :=
  missing_required_identifiers_throw.2.2.1 metaOne navOne lcpNoIndex emptyHandlerState
    "nav1" [(1, { window := { min := 0, max := 1000000000 } })]
    { window := { min := 0, max := 1000000000 } }
    (by decide) (by decide) (by decide) (by decide) (by decide) (by decide)
    (by decide) (by decide)

/-! ### Claim C6 -/

/-- C6: an event whose navigation id is unknown to the Meta handler, or
whose frame or process is missing from the renderer-processes-by-frame
index, or whose timestamp lies outside its process's inclusive activity
window, is silently dropped: navigation resolution answers null, the store
step returns the state unchanged, and the concrete finalize run over an FCP
event of a filtered-out navigation succeeds with an empty metric table. -/
theorem filtered_out_events_silently_dropped :
    (∀ (meta : MetaData) (e : TraceEvent) (nid : String),
      (e.name = EventKind.FirstContentfulPaint ∨ e.name = EventKind.FirstPaint ∨
       e.name = EventKind.LargestContentfulPaintCandidate) →
      e.navigationId = some nid → nid ≠ "" →
      mapGet nid meta.navigationsByNavigationId = none →
      getNavigationForPageLoadEvent meta e = Except.ok none) ∧
    (∀ (meta : MetaData) (nav : TraceEventNavigationStart) (e : TraceEvent)
        (st : HandlerState) (nid fid : String),
      nav.navigationId = some nid → nid ≠ "" →
      getFrameIdForPageLoadEvent e = Except.ok fid →
      mapGet fid meta.rendererProcessesByFrame = none →
      storePageLoadMetricAgainstNavigationId meta nav e st = Except.ok st) ∧
    (∀ (meta : MetaData) (nav : TraceEventNavigationStart) (e : TraceEvent)
        (st : HandlerState) (nid fid : String) (procs : List (Nat × ProcessData)),
      nav.navigationId = some nid → nid ≠ "" →
      getFrameIdForPageLoadEvent e = Except.ok fid →
      mapGet fid meta.rendererProcessesByFrame = some procs →
      mapGet e.pid procs = none →
      storePageLoadMetricAgainstNavigationId meta nav e st = Except.ok st) ∧
    (∀ (meta : MetaData) (nav : TraceEventNavigationStart) (e : TraceEvent)
        (st : HandlerState) (nid fid : String) (procs : List (Nat × ProcessData))
        (pd : ProcessData),
      nav.navigationId = some nid → nid ≠ "" →
      getFrameIdForPageLoadEvent e = Except.ok fid →
      mapGet fid meta.rendererProcessesByFrame = some procs →
      mapGet e.pid procs = some pd →
      ¬ (pd.window.min ≤ e.ts ∧ e.ts ≤ pd.window.max) →
      storePageLoadMetricAgainstNavigationId meta nav e st = Except.ok st) ∧
    finalize metaOne rendererNone (handleEvents emptyHandlerState [fcpNoise]) =
      Except.ok stNoiseResult := by
  refine ⟨?_, ?_, ?_, ?_, by decide⟩
  · intro meta e nid hk hnav hne hget
    rcases hk with h | h | h <;> simp [getNavigationForPageLoadEvent, h, hnav, hne, hget]
  · intro meta nav e st nid fid hnav hne hfid hprocs
    simp [storePageLoadMetricAgainstNavigationId, hnav, hne, hfid, hprocs]
  · intro meta nav e st nid fid procs hnav hne hfid hprocs hpid
    simp [storePageLoadMetricAgainstNavigationId, hnav, hne, hfid, hprocs, hpid]
  · intro meta nav e st nid fid procs pd hnav hne hfid hprocs hpid hwin
    simp [storePageLoadMetricAgainstNavigationId, hnav, hne, hfid, hprocs, hpid, hwin]

/-- C6 witness: the navigation-resolution conclusion at a concrete input. -/
theorem filtered_out_events_silently_dropped_witness :
    getNavigationForPageLoadEvent metaOne fcpNoise = Except.ok none :=
  filtered_out_events_silently_dropped.1 metaOne fcpNoise "ghost"
    (by decide) (by decide) (by decide) (by decide)

/-! ### Claim C10 -/

/-- C10: presence of required identifiers is tested by JS falsiness, not by
absence: an LCP candidate whose `candidateIndex` is 0, and an FCP/FP/LCP
event whose `navigationId` is the empty string, throw the same fatal
data-integrity error as when the field is missing, even though the field is
present; concrete finalize runs over such events abort. -/
theorem falsy_identifiers_treated_as_absent :
    (∀ (meta : MetaData) (e : TraceEvent),
      (e.name = EventKind.FirstContentfulPaint ∨ e.name = EventKind.FirstPaint ∨
       e.name = EventKind.LargestContentfulPaintCandidate) →
      e.navigationId = some "" →
      getNavigationForPageLoadEvent meta e =
        Except.error "Trace event unexpectedly had no navigation ID." ∧
      getNavigationForPageLoadEvent meta e =
        getNavigationForPageLoadEvent meta { e with navigationId := none }) ∧
    (∀ (meta : MetaData) (nav : TraceEventNavigationStart) (e : TraceEvent)
        (st : HandlerState) (nid : String) (procs : List (Nat × ProcessData))
        (pd : ProcessData),
      e.name = EventKind.LargestContentfulPaintCandidate →
      e.candidateIndex = some 0 →
      nav.navigationId = some nid → nid ≠ "" →
      mapGet e.argsFrame meta.rendererProcessesByFrame = some procs →
      mapGet e.pid procs = some pd →
      pd.window.min ≤ e.ts → e.ts ≤ pd.window.max →
      storePageLoadMetricAgainstNavigationId meta nav e st =
        Except.error "Largest Contenful Paint unexpectedly had no candidateIndex." ∧
      storePageLoadMetricAgainstNavigationId meta nav e st =
        storePageLoadMetricAgainstNavigationId meta nav
          { e with candidateIndex := none } st) ∧
    finalize metaOne rendererNone (handleEvents emptyHandlerState [lcpZeroIndex]) =
      Except.error "Largest Contenful Paint unexpectedly had no candidateIndex." ∧
    finalize metaOne rendererNone (handleEvents emptyHandlerState [fcpEmptyNav]) =
      Except.error "Trace event unexpectedly had no navigation ID." := by
  refine ⟨?_, ?_, by decide, by decide⟩
  · intro meta e hk hnav
    rcases hk with h | h | h <;>
      constructor <;> simp [getNavigationForPageLoadEvent, h, hnav]
  · intro meta nav e st nid procs pd hk hidx hnav hne hprocs hpd hmin hmax
    constructor <;>
      simp [storePageLoadMetricAgainstNavigationId, hk, hidx, hnav, hne,
        getFrameIdForPageLoadEvent, hprocs, hpd, hmin, hmax]

/-- C10 witness: both falsy-field conclusions at concrete inputs. -/
theorem falsy_identifiers_treated_as_absent_witness :
    getNavigationForPageLoadEvent metaOne fcpEmptyNav =
      Except.error "Trace event unexpectedly had no navigation ID." ∧
    storePageLoadMetricAgainstNavigationId metaOne navOne lcpZeroIndex emptyHandlerState =
      Except.error "Largest Contenful Paint unexpectedly had no candidateIndex." := by
  constructor
  · exact (falsy_identifiers_treated_as_absent.1 metaOne fcpEmptyNav
      (Or.inl (by decide)) (by decide)).1
  · exact (falsy_identifiers_treated_as_absent.2.1 metaOne navOne lcpZeroIndex
      emptyHandlerState "nav1" [(1, { window := { min := 0, max := 1000000000 } })]
      { window := { min := 0, max := 1000000000 } }
      (by decide) (by decide) (by decide) (by decide) (by decide) (by decide)
      (by decide) (by decide)).1

/-! ### Claim C2 -/

/-- C2: an LCP candidate is stored when no prior candidate exists for its
(frame, navigation); a stored candidate is replaced by a later-processed one
exactly when the new event's candidate index is strictly greater (otherwise
the new event is discarded and the state is unchanged), and the
selected-candidate set tracks the replacement (the superseded event is
removed, the new one added); consequently the concrete run over candidates
with indices [1, 2, 3] stores candidate 3 and the selected set is exactly
that event. -/
theorem lcp_candidate_replaced_only_on_strictly_larger_index :
    (∀ (meta : MetaData) (nav : TraceEventNavigationStart) (e : TraceEvent)
        (st : HandlerState) (nid : String) (procs : List (Nat × ProcessData))
        (pd : ProcessData) (k : Nat),
      e.name = EventKind.LargestContentfulPaintCandidate →
      e.candidateIndex = some k → k ≠ 0 →
      nav.navigationId = some nid → nid ≠ "" →
      mapGet e.argsFrame meta.rendererProcessesByFrame = some procs →
      mapGet e.pid procs = some pd →
      pd.window.min ≤ e.ts → e.ts ≤ pd.window.max →
      getMetric st.metricScoresByFrameId e.argsFrame nid MetricName.LCP = none →
      ∃ st2, storePageLoadMetricAgainstNavigationId meta nav e st = Except.ok st2 ∧
        (getMetric st2.metricScoresByFrameId e.argsFrame nid MetricName.LCP).map
          MetricScore.event = some (some e) ∧
        st2.selectedLCPCandidateEvents = setAdd st.selectedLCPCandidateEvents e) ∧
    (∀ (meta : MetaData) (nav : TraceEventNavigationStart) (e last : TraceEvent)
        (st : HandlerState) (nid : String) (procs : List (Nat × ProcessData))
        (pd : ProcessData) (k lastK : Nat) (lastScore : MetricScore),
      e.name = EventKind.LargestContentfulPaintCandidate →
      e.candidateIndex = some k → k ≠ 0 →
      nav.navigationId = some nid → nid ≠ "" →
      mapGet e.argsFrame meta.rendererProcessesByFrame = some procs →
      mapGet e.pid procs = some pd →
      pd.window.min ≤ e.ts → e.ts ≤ pd.window.max →
      getMetric st.metricScoresByFrameId e.argsFrame nid MetricName.LCP = some lastScore →
      lastScore.event = some last →
      last.name = EventKind.LargestContentfulPaintCandidate →
      last.candidateIndex = some lastK → lastK ≠ 0 →
      ((lastK < k →
        ∃ st2, storePageLoadMetricAgainstNavigationId meta nav e st = Except.ok st2 ∧
          (getMetric st2.metricScoresByFrameId e.argsFrame nid MetricName.LCP).map
            MetricScore.event = some (some e) ∧
          st2.selectedLCPCandidateEvents =
            setAdd (setDelete st.selectedLCPCandidateEvents last) e) ∧
       (¬ lastK < k →
        storePageLoadMetricAgainstNavigationId meta nav e st = Except.ok st))) ∧
    (getMetric (resultOf (finalize metaOne rendererNone stLcp)).metricScoresByFrameId
        "F" "nav1" MetricName.LCP).map MetricScore.event = some (some lcpThree) ∧
    (resultOf (finalize metaOne rendererNone stLcp)).selectedLCPCandidateEvents =
      [lcpThree] := by
  refine ⟨?_, ?_, by decide, by decide⟩
  · intro meta nav e st nid procs pd k hk hidx hkne hnav hne hprocs hpd hmin hmax hprior
    simp only [getMetric, metricsAt] at hprior
    refine ⟨{ st with
        selectedLCPCandidateEvents := setAdd st.selectedLCPCandidateEvents e
        metricScoresByFrameId := storeMetricScore st.metricScoresByFrameId e.argsFrame nid
          { event := some e
            score := formatMicrosecondsTime ((e.ts : Int) - (nav.ts : Int)) TimeUnit.SECONDS 2
            metricName := MetricName.LCP
            classification :=
              scoreClassificationForLargestContentfulPaint ((e.ts : Int) - (nav.ts : Int))
            navigation := some nav
            estimated := none } }, ?_, ?_, ?_⟩
    · simp [storePageLoadMetricAgainstNavigationId, hk, hidx, hkne, hnav, hne,
        getFrameIdForPageLoadEvent, hprocs, hpd, hmin, hmax, hprior]
    · rw [getMetric_storeMetricScore]
      simp
    · rfl
  · intro meta nav e last st nid procs pd k lastK lastScore
      hk hidx hkne hnav hne hprocs hpd hmin hmax hprior hlev hlname hlidx hlkne
    simp only [getMetric, metricsAt] at hprior
    constructor
    · intro hlt
      refine ⟨{ st with
          selectedLCPCandidateEvents :=
            setAdd (setDelete st.selectedLCPCandidateEvents last) e
          metricScoresByFrameId := storeMetricScore st.metricScoresByFrameId e.argsFrame nid
            { event := some e
              score := formatMicrosecondsTime ((e.ts : Int) - (nav.ts : Int)) TimeUnit.SECONDS 2
              metricName := MetricName.LCP
              classification :=
                scoreClassificationForLargestContentfulPaint ((e.ts : Int) - (nav.ts : Int))
              navigation := some nav
              estimated := none } }, ?_, ?_, ?_⟩
      · simp [storePageLoadMetricAgainstNavigationId, hk, hidx, hkne, hnav, hne,
          getFrameIdForPageLoadEvent, hprocs, hpd, hmin, hmax, hprior, hlev,
          isTraceEventLargestContentfulPaintCandidate, hlname, hlidx, hlkne, hlt]
      · rw [getMetric_storeMetricScore]
        simp
      · rfl
    · intro hge
      simp [storePageLoadMetricAgainstNavigationId, hk, hidx, hkne, hnav, hne,
        getFrameIdForPageLoadEvent, hprocs, hpd, hmin, hmax, hprior, hlev,
        isTraceEventLargestContentfulPaintCandidate, hlname, hlidx, hlkne, hge]

/-- C2 witness: storing a first candidate into the empty state. -/
theorem lcp_candidate_replaced_only_on_strictly_larger_index_witness :
    ∃ st2, storePageLoadMetricAgainstNavigationId metaOne navOne lcpOne emptyHandlerState =
        Except.ok st2 ∧
      (getMetric st2.metricScoresByFrameId lcpOne.argsFrame "nav1" MetricName.LCP).map
        MetricScore.event = some (some lcpOne) ∧
      st2.selectedLCPCandidateEvents = setAdd emptyHandlerState.selectedLCPCandidateEvents lcpOne :=
  lcp_candidate_replaced_only_on_strictly_larger_index.1 metaOne navOne lcpOne
    emptyHandlerState "nav1" [(1, { window := { min := 0, max := 1000000000 } })]
    { window := { min := 0, max := 1000000000 } } 1
    (by decide) (by decide) (by decide) (by decide) (by decide) (by decide)
    (by decide) (by decide) (by decide) (by decide)

/-! ### Claim C4 -/

/-- C4: after a successful finalize, the public marker sequence is sorted
non-decreasingly by timestamp and contains exactly the events that are
marker events whose frame id is the Meta handler's main frame id and that
are either finally selected LCP candidate events (the LCP events stored in
the final metric table) or buffered non-LCP-candidate page-load events; in
particular it contains no InteractiveTime event and no un-selected LCP
candidate, and the final buffer holds the same events as the original
buffer. -/
theorem finalize_assembles_main_frame_markers :
    ∀ (meta : MetaData) (renderer : RendererData) (st st' : HandlerState),
      finalize meta renderer st = Except.ok st' →
      List.Sorted tsLe st'.allMarkerEvents ∧
      (∀ e, e ∈ st'.allMarkerEvents ↔
        (isTraceEventMarkerEvent e = true ∧
         getFrameIdForPageLoadEvent e = Except.ok meta.mainFrameId ∧
         (e ∈ gatherFinalLCPEvents st'.metricScoresByFrameId ∨
          (e ∈ st'.pageLoadEventsArray ∧
           isTraceEventLargestContentfulPaintCandidate e = false)))) ∧
      (∀ e ∈ st'.allMarkerEvents, e.name ≠ EventKind.InteractiveTime) ∧
      (∀ e ∈ st'.allMarkerEvents, e.name = EventKind.LargestContentfulPaintCandidate →
        e ∈ gatherFinalLCPEvents st'.metricScoresByFrameId) ∧
      (∀ e, e ∈ st'.pageLoadEventsArray ↔ e ∈ st.pageLoadEventsArray) := by
  intro meta renderer st st' h
  obtain ⟨st1, table2, filtered, hp, hest, hfil, hst⟩ := finalize_ok_destruct h
  have hfields := processSortedEvents_fields hp
  subst hst
  have hiff : ∀ e, e ∈ List.insertionSort tsLe filtered ↔
      (isTraceEventMarkerEvent e = true ∧
       getFrameIdForPageLoadEvent e = Except.ok meta.mainFrameId ∧
       (e ∈ gatherFinalLCPEvents table2 ∨
        (e ∈ st1.pageLoadEventsArray ∧
         isTraceEventLargestContentfulPaintCandidate e = false))) := by
    intro e
    rw [(List.perm_insertionSort tsLe filtered).mem_iff, filterByMainFrame_ok_mem hfil e,
      List.mem_filter, List.mem_append, List.mem_filter]
    constructor
    · rintro ⟨⟨hin, hmark⟩, hframe⟩
      refine ⟨hmark, hframe, ?_⟩
      rcases hin with h1 | ⟨h2, h3⟩
      · exact Or.inl h1
      · exact Or.inr ⟨h2, by simpa using h3⟩
    · rintro ⟨hmark, hframe, hin⟩
      refine ⟨⟨?_, hmark⟩, hframe⟩
      rcases hin with h1 | ⟨h2, h3⟩
      · exact Or.inl h1
      · exact Or.inr ⟨h2, by simpa using h3⟩
  refine ⟨List.sorted_insertionSort tsLe filtered, hiff, ?_, ?_, ?_⟩
  · intro e he hname
    have hmark := ((hiff e).mp he).1
    rcases (isTraceEventMarkerEvent_iff e).mp hmark with h1 | h1 | h1 | h1 | h1 <;>
      simp [hname] at h1
  · intro e he hname
    rcases ((hiff e).mp he).2.2 with h1 | ⟨h2, h3⟩
    · exact h1
    · simp [isTraceEventLargestContentfulPaintCandidate, hname] at h3
  · intro e
    have h1 : ({ st1 with metricScoresByFrameId := table2, allMarkerEvents := List.insertionSort tsLe filtered } : HandlerState).pageLoadEventsArray = st1.pageLoadEventsArray := rfl
    rw [h1, hfields.1]
    exact (List.perm_insertionSort tsLe st.pageLoadEventsArray).mem_iff

/-- C4 witness: the marker properties at the concrete two-frame scenario. -/
theorem finalize_assembles_main_frame_markers_witness :
    List.Sorted tsLe (resultOf (finalize metaOne rendererNone stMarkers)).allMarkerEvents ∧
    (∀ e ∈ (resultOf (finalize metaOne rendererNone stMarkers)).allMarkerEvents,
      e.name ≠ EventKind.InteractiveTime) := by
  have h := finalize_assembles_main_frame_markers metaOne rendererNone stMarkers
    (resultOf (finalize metaOne rendererNone stMarkers)) (by decide)
  exact ⟨h.1, h.2.2.1⟩

/-! ### Claim C1 -/

/-- C1: every TBT score in the finalized table (starting from an empty
table, as after `reset`) is exactly one of: authoritative — built from an
InteractiveTime event's `total_blocking_time_ms` payload converted to
microseconds, with the `estimated` flag unset — or a synthesized estimate
with `estimated = true`, whose value is the root-task walk of the FCP
event's process's main-thread call tree (only non-instant `RunTask` tasks
not ending before FCP, clipped at FCP, summing the excess over the 50 ms
threshold) and which exists only where an FCP score exists; the estimation
pass never replaces an existing (authoritative) TBT score; and the two
spec examples hold: `totalBlockingTimeMs = 120` gives a non-estimated
120 ms score, while FCP at t = 1,000,000 µs with a 200 ms task starting at
t = 1,050,000 µs and no InteractiveTime event gives an estimated 150 ms
score. -/
theorem tbt_score_authoritative_or_estimated :
    (∀ (meta : MetaData) (renderer : RendererData) (st st' : HandlerState),
      st.metricScoresByFrameId = [] →
      finalize meta renderer st = Except.ok st' →
      ∀ f n s, getMetric st'.metricScoresByFrameId f n MetricName.TBT = some s →
        (authoritativeTBTShape s ∧ s.estimated ≠ some true) ∨
        (estimatedTBTShape renderer (metricsAt st'.metricScoresByFrameId f n) s ∧
         s.estimated = some true ∧
         getMetric st'.metricScoresByFrameId f n MetricName.FCP ≠ none)) ∧
    (∀ (renderer : RendererData) (t1 t2 : MetricTable), tableWF t1 →
      estimateTotalBlockingTimes renderer t1 = Except.ok t2 →
      ∀ f n s, getMetric t1 f n MetricName.TBT = some s →
        getMetric t2 f n MetricName.TBT = some s) ∧
    (getMetric (resultOf (finalize metaOne rendererNone stInteractive)).metricScoresByFrameId
        "F" "nav1" MetricName.TBT).map (fun s => (s.score.valueMicros, s.estimated, s.event)) =
      some (120000, none, some itEvent120) ∧
    (getMetric (resultOf (finalize metaOne rendererMain stFcp)).metricScoresByFrameId
        "F" "nav1" MetricName.TBT).map (fun s => (s.score.valueMicros, s.estimated, s.event)) =
      some (150000, some true, none) := by
  refine ⟨?_, ?_, by decide, by decide⟩
  · intro meta renderer st st' hempty h f n s hget
    obtain ⟨st1, table2, filtered, hp, hest, hfil, hst⟩ := finalize_ok_destruct h
    subst hst
    have hget2 : getMetric table2 f n MetricName.TBT = some s := hget
    have hwf0 : tableWF ({ st with
        pageLoadEventsArray := List.insertionSort tsLe st.pageLoadEventsArray } :
        HandlerState).metricScoresByFrameId := by
      show tableWF st.metricScoresByFrameId
      rw [hempty]
      exact ⟨List.nodup_nil, by simp⟩
    have hwf1 : tableWF st1.metricScoresByFrameId := processSortedEvents_wf hp hwf0
    obtain ⟨he1, he2, he3⟩ := estimateTotalBlockingTimes_props hwf1 hest
    rcases he3 f n s hget2 with h1 | ⟨hnone1, hshape, hestflag⟩
    · rcases processSortedEvents_tbt hp f n s h1 with hauth | h0
      · refine Or.inl ⟨hauth, ?_⟩
        rw [hauth.2.1]
        simp
      · have h0b : getMetric st.metricScoresByFrameId f n MetricName.TBT = some s := h0
        rw [hempty] at h0b
        simp [getMetric, metricsAt, mapGet] at h0b
    · right
      have hfcp : getMetric table2 f n MetricName.FCP =
          getMetric st1.metricScoresByFrameId f n MetricName.FCP :=
        he1 f n MetricName.FCP (by simp)
      obtain ⟨nf, fe, pr, mt, tr, v, s1, s2, s3, s4, s5, s6, s7⟩ := hshape
      refine ⟨⟨nf, fe, pr, mt, tr, v, ?_, s2, s3, s4, s5, s6, s7⟩, hestflag, ?_⟩
      · show getMetric table2 f n MetricName.FCP = some nf
        rw [hfcp]
        exact s1
      · intro hcon
        have : getMetric table2 f n MetricName.FCP = some nf := by
          rw [hfcp]
          exact s1
        rw [hcon] at this
        exact Option.noConfusion this
  · intro renderer t1 t2 hwf h f n s hs
    exact (estimateTotalBlockingTimes_props hwf h).2.1 f n s hs

/-- C1 witness: the provenance disjunction applied at the estimated-TBT
example run. -/
theorem tbt_score_authoritative_or_estimated_witness :
    (authoritativeTBTShape tbtEstimateScoreB ∧ tbtEstimateScoreB.estimated ≠ some true) ∨
    (estimatedTBTShape rendererMain
        (metricsAt (resultOf (finalize metaOne rendererMain stFcp)).metricScoresByFrameId
          "F" "nav1") tbtEstimateScoreB ∧
     tbtEstimateScoreB.estimated = some true ∧
     getMetric (resultOf (finalize metaOne rendererMain stFcp)).metricScoresByFrameId
        "F" "nav1" MetricName.FCP ≠ none) :=
  tbt_score_authoritative_or_estimated.1 metaOne rendererMain stFcp
    (resultOf (finalize metaOne rendererMain stFcp)) (by decide) (by decide)
    "F" "nav1" tbtEstimateScoreB (by decide)

/-! ### Claim C9 -/

/-- C9 counterexample: the claim that a `data()` snapshot is unaffected by
subsequent mutation at every level fails: storing a TBT score for a frame
and navigation already present in the handler's table changes the view of a
previously taken snapshot. -/
theorem data_snapshot_not_deep_counterexample :
    ¬ viewSnapshot (dataHeap heapOne) (storeMetricScoreHeap heapOne "F" "nav1" scoreTbtTen) =
      viewSnapshot (dataHeap heapOne) heapOne := by decide

/-- C9 (amended): the `data()` table copy (`new Map(metricScoresByFrameId)`)
is shallow — only the outer frame-id map is copied.  Hence `reset()` leaves
any snapshot's view unchanged, and a store for a frame that is absent from
the handler's outer map allocates fresh inner maps and also leaves the
snapshot's view unchanged; but a store for a frame present in the outer map
mutates inner maps shared with the snapshot, changing the snapshot's view
exactly as if the store had been applied to it.  Both mutations preserve
heap well-formedness, so this holds across any chain of mutations. -/
theorem data_snapshot_is_shallow_copy :
    (∀ (h : JSHeap) (snapshot : List (String × Nat)),
      viewSnapshot snapshot (resetHeap h) = viewSnapshot snapshot h) ∧
    (∀ (h : JSHeap) (fId nId : String) (ms : MetricScore), heapWF h →
      viewSnapshot (dataHeap h) (storeMetricScoreHeap h fId nId ms) =
        (if (mapGet fId h.outer).isSome = true
         then storeMetricScore (viewSnapshot (dataHeap h) h) fId nId ms
         else viewSnapshot (dataHeap h) h)) ∧
    (∀ (h : JSHeap) (fId nId : String) (ms : MetricScore), heapWF h →
      heapWF (storeMetricScoreHeap h fId nId ms)) ∧
    (∀ h : JSHeap, heapWF h → heapWF (resetHeap h)) := by
  refine ⟨fun h snapshot => viewSnapshot_resetHeap snapshot h, ?_, ?_,
    fun h hwf => heapWF_resetHeap hwf⟩
  · intro h fId nId ms hwf
    cases hfr : mapGet fId h.outer with
    | none =>
      simp only [Option.isSome_none]
      rw [if_neg (by simp)]
      exact viewSnapshot_store_absent hwf hfr
    | some r =>
      simp only [Option.isSome_some, if_true]
      exact viewSnapshot_store_present hwf hfr
  · intro h fId nId ms hwf
    cases hfr : mapGet fId h.outer with
    | none => exact heapWF_store_absent nId ms hwf hfr
    | some r => exact heapWF_store_present nId ms hwf hfr

/-- C9 witness: the shallow-copy characterization applied at a concrete
well-formed heap whose frame is present in the handler's table. -/
theorem data_snapshot_is_shallow_copy_witness :
    viewSnapshot (dataHeap heapOne) (storeMetricScoreHeap heapOne "F" "nav1" scoreTbtTen) =
      (if (mapGet "F" heapOne.outer).isSome = true
       then storeMetricScore (viewSnapshot (dataHeap heapOne) heapOne) "F" "nav1" scoreTbtTen
       else viewSnapshot (dataHeap heapOne) heapOne) :=
  data_snapshot_is_shallow_copy.2.1 heapOne "F" "nav1" scoreTbtTen (by decide)

end PageLoadMetrics
